import Mathlib

/-!
# vault-operator: etcd TLS secret provisioning (`pkg/operator/tls.go`)

A shallow embedding of `prepareTLSSecrets` and its helpers.

* Go errors are represented by their message (`err.Error()`), so
  `fmt.Errorf("ctx: %v", err)` is string concatenation.
* The packages `tlsutil`, `k8sutil` and the Kubernetes client are external to
  `tls.go`; they are taken as the fields of an environment `Env`.  The
  effectful ones (key generation, signing, the secret store) act on an
  abstract world `W` and may fail.
* Every call into a collaborator is appended to a call log carried next to the
  world, so that what the collaborators receive can be stated.
-/

set_option autoImplicit false

namespace VaultOperator

/-! ## Go maps -/

/-- A Go `map[string]V`: an association list holding at most one entry per key. -/
abbrev GoMap (V : Type) := List (String × V)

namespace GoMap

variable {V : Type}

/-- The entry stored under `k`, if any (`v, ok := m[k]`). -/
def get? : GoMap V → String → Option V
  | [], _ => none
  | (k', v) :: rest, k => if k' = k then some v else get? rest k

/-- The assignment `m[k] = v`: overwrites an existing entry, else adds one. -/
def set : GoMap V → String → V → GoMap V
  | [], k, v => [(k, v)]
  | (k', v') :: rest, k, v => if k' = k then (k, v) :: rest else (k', v') :: set rest k v

/-- A composite literal `map[string]V{k1: v1, k2: v2, ...}`: the entries are
stored in source order, a later entry overwriting an earlier one with the
same key. -/
def lit (kvs : List (String × V)) : GoMap V :=
  kvs.foldl (fun m kv => m.set kv.1 kv.2) []

/-- The keys present in the map. -/
def keys (m : GoMap V) : List String := m.map Prod.fst

end GoMap

/-- The Go index expression `fieldMap[k]` on a `map[string]string`: the zero
value `""` when the key is absent. -/
def GoMap.index (m : GoMap String) (k : String) : String := (m.get? k).getD ""

/-! ## Data model -/

/-- The fields of `*spec.Vault` that `tls.go` reads. -/
structure Vault where
  Name : String
  Namespace : String
  deriving DecidableEq, Repr

/-- Modelled from the spec: the type `tlsutil.AltNames` is not under src/.
Spec section 3 describes the AltNames of a CertConfig as a set of string. -/
abbrev AltNames := Finset String

/-- Modelled from the spec: `tlsutil.NewAltNames` is not under src/. It builds
the AltNames set of spec section 3 from the address slice; a nil slice is the
empty list and gives the empty set. -/
def NewAltNames (addrs : List String) : AltNames := addrs.toFinset

/-- The fields of `tlsutil.CertConfig` that `tls.go` sets. A field left out of
a composite literal has its zero value, here the empty AltNames. -/
structure CertConfig where
  CommonName : String
  Organization : List String
  AltNames : AltNames := ∅
  deriving DecidableEq

/-- The fields of `v1.Secret` that `tls.go` sets: `ObjectMeta.Name`,
`ObjectMeta.Labels` and `Data`. -/
structure Secret (Bytes : Type) where
  Name : String
  Labels : GoMap String
  Data : GoMap Bytes
  deriving DecidableEq

/-- `var orgForTLSCert = []string{"coreos.com"}`. -/
def orgForTLSCert : List String := ["coreos.com"]

/-- `var defaultClusterDomain = "cluster.local"`. -/
def defaultClusterDomain : String := "cluster.local"

/-- A call made into a collaborator package, with the arguments it received. -/
inductive Call (Key Cert Bytes : Type) where
  | NewAltNames (addrs : List String)
  | NewPrivateKey
  | NewSelfSignedCACertificate (config : CertConfig) (key : Key)
  | NewSignedCertificate (config : CertConfig) (key : Key) (caCert : Cert) (caKey : Key)
  | EncodePrivateKeyPEM (key : Key)
  | EncodeCertificatePEM (cert : Cert)
  | Create (ns : String) (secret : Secret Bytes)
  deriving DecidableEq

/-- The collaborators of `tls.go`. `W` is the state of the outside world (the
random source, the clock, the secret store); a fallible call returns either
the error message or its result, and the next world. -/
structure Env (W Key Cert Bytes : Type) where
  /-- `tlsutil.NewPrivateKey()`. -/
  NewPrivateKey : W → Except String Key × W
  /-- `tlsutil.NewSelfSignedCACertificate(config, key)`. -/
  NewSelfSignedCACertificate : CertConfig → Key → W → Except String Cert × W
  /-- `tlsutil.NewSignedCertificate(config, key, caCert, caPrivKey)`. -/
  NewSignedCertificate : CertConfig → Key → Cert → Key → W → Except String Cert × W
  /-- `tlsutil.EncodePrivateKeyPEM(key)`. -/
  EncodePrivateKeyPEM : Key → Bytes
  /-- `tlsutil.EncodeCertificatePEM(cert)`. -/
  EncodeCertificatePEM : Cert → Bytes
  /-- `k8sutil.EtcdNameForVault(name)`. -/
  EtcdNameForVault : String → String
  /-- `k8sutil.EtcdClientTLSSecretName(name)`. -/
  EtcdClientTLSSecretName : String → String
  /-- `k8sutil.EtcdServerTLSSecretName(name)`. -/
  EtcdServerTLSSecretName : String → String
  /-- `k8sutil.EtcdPeerTLSSecretName(name)`. -/
  EtcdPeerTLSSecretName : String → String
  /-- `k8sutil.LabelsForVault(name)`. -/
  LabelsForVault : String → GoMap String
  /-- `v.kubecli.CoreV1().Secrets(namespace).Create(secret)`; the returned
  object is discarded by the caller, only the error is kept. -/
  Create : String → Secret Bytes → W → Except String Unit × W

/-- The state threaded through the program: the outside world and the log of
the collaborator calls made so far, oldest first. -/
structure St (W Key Cert Bytes : Type) where
  world : W
  log : List (Call Key Cert Bytes)

section Program

variable {W Key Cert Bytes : Type}

/-- The state at the start of a run: nothing has been called yet. -/
def St.init (w : W) : St W Key Cert Bytes := ⟨w, []⟩

/-- Record a call. -/
def St.record (s : St W Key Cert Bytes) (c : Call Key Cert Bytes) (w : W) :
    St W Key Cert Bytes :=
  ⟨w, s.log ++ [c]⟩

/-- `newKeyAndCert(caCert, caPrivKey, config)`. -/
def newKeyAndCert (E : Env W Key Cert Bytes) (caCert : Cert) (caPrivKey : Key)
    (config : CertConfig) (s : St W Key Cert Bytes) :
    Except String (Key × Cert) × St W Key Cert Bytes :=
  match E.NewPrivateKey s.world with
  | (.error err, w1) => (.error err, s.record .NewPrivateKey w1)
  | (.ok key, w1) =>
    let s1 := s.record .NewPrivateKey w1
    match E.NewSignedCertificate config key caCert caPrivKey w1 with
    | (.error err, w2) =>
      (.error err, s1.record (.NewSignedCertificate config key caCert caPrivKey) w2)
    | (.ok cert, w2) =>
      (.ok (key, cert), s1.record (.NewSignedCertificate config key caCert caPrivKey) w2)

/-- `newCACert()`. -/
def newCACert (E : Env W Key Cert Bytes) (s : St W Key Cert Bytes) :
    Except String (Key × Cert) × St W Key Cert Bytes :=
  match E.NewPrivateKey s.world with
  | (.error err, w1) => (.error err, s.record .NewPrivateKey w1)
  | (.ok key, w1) =>
    let s1 := s.record .NewPrivateKey w1
    let config : CertConfig :=
      { CommonName := "vault operator CA"
        Organization := orgForTLSCert }
    match E.NewSelfSignedCACertificate config key w1 with
    | (.error err, w2) => (.error err, s1.record (.NewSelfSignedCACertificate config key) w2)
    | (.ok cert, w2) => (.ok (key, cert), s1.record (.NewSelfSignedCACertificate config key) w2)

/-- `newTLSSecret(vr, caKey, caCrt, commonName, secretName, addrs, fieldMap)`. -/
def newTLSSecret (E : Env W Key Cert Bytes) (vr : Vault) (caKey : Key) (caCrt : Cert)
    (commonName secretName : String) (addrs : List String) (fieldMap : GoMap String)
    (s : St W Key Cert Bytes) : Except String (Secret Bytes) × St W Key Cert Bytes :=
  let tc : CertConfig :=
    { CommonName := commonName
      Organization := orgForTLSCert
      AltNames := NewAltNames addrs }
  let s0 := s.record (.NewAltNames addrs) s.world
  match newKeyAndCert E caCrt caKey tc s0 with
  | (.error err, s1) => (.error ("new TLS secret failed: " ++ err), s1)
  | (.ok (key, crt), s1) =>
    let secret : Secret Bytes :=
      { Name := secretName
        Labels := E.LabelsForVault vr.Name
        Data := GoMap.lit
          [ (fieldMap.index "key", E.EncodePrivateKeyPEM key),
            (fieldMap.index "cert", E.EncodeCertificatePEM crt),
            (fieldMap.index "ca", E.EncodeCertificatePEM caCrt) ] }
    (.ok secret,
      ⟨s1.world, s1.log ++
        [.EncodePrivateKeyPEM key, .EncodeCertificatePEM crt, .EncodeCertificatePEM caCrt]⟩)

/-- `newEtcdClientTLSSecret(vr, caKey, caCrt)`. The Go call passes `nil` for
`addrs`. -/
def newEtcdClientTLSSecret (E : Env W Key Cert Bytes) (vr : Vault) (caKey : Key)
    (caCrt : Cert) (s : St W Key Cert Bytes) :
    Except String (Secret Bytes) × St W Key Cert Bytes :=
  newTLSSecret E vr caKey caCrt "etcd client" (E.EtcdClientTLSSecretName vr.Name) []
    (GoMap.lit
      [ ("key", "etcd-client.key"),
        ("cert", "etcd-client.crt"),
        ("ca", "etcd-client-ca.crt") ]) s

/-- `newEtcdServerTLSSecret(vr, caKey, caCrt, clusterDomain)`. -/
def newEtcdServerTLSSecret (E : Env W Key Cert Bytes) (vr : Vault) (caKey : Key)
    (caCrt : Cert) (clusterDomain : String) (s : St W Key Cert Bytes) :
    Except String (Secret Bytes) × St W Key Cert Bytes :=
  newTLSSecret E vr caKey caCrt "etcd server" (E.EtcdServerTLSSecretName vr.Name)
    [ "localhost",
      "*." ++ E.EtcdNameForVault vr.Name ++ "." ++ vr.Namespace ++ ".svc." ++ clusterDomain,
      E.EtcdNameForVault vr.Name ++ "-client." ++ vr.Namespace ++ ".svc." ++ clusterDomain ]
    (GoMap.lit
      [ ("key", "server.key"),
        ("cert", "server.crt"),
        ("ca", "server-ca.crt") ]) s

/-- `newEtcdPeerTLSSecret(vr, caKey, caCrt, clusterDomain)`. -/
def newEtcdPeerTLSSecret (E : Env W Key Cert Bytes) (vr : Vault) (caKey : Key)
    (caCrt : Cert) (clusterDomain : String) (s : St W Key Cert Bytes) :
    Except String (Secret Bytes) × St W Key Cert Bytes :=
  newTLSSecret E vr caKey caCrt "etcd peer" (E.EtcdPeerTLSSecretName vr.Name)
    [ "*." ++ E.EtcdNameForVault vr.Name ++ "." ++ vr.Namespace ++ ".svc." ++ clusterDomain ]
    (GoMap.lit
      [ ("key", "peer.key"),
        ("cert", "peer.crt"),
        ("ca", "peer-ca.crt") ]) s

/-- `v.kubecli.CoreV1().Secrets(ns).Create(se)`, recorded in the log. -/
def createSecret (E : Env W Key Cert Bytes) (ns : String) (se : Secret Bytes)
    (s : St W Key Cert Bytes) : Except String Unit × St W Key Cert Bytes :=
  match E.Create ns se s.world with
  | (r, w1) => (r, s.record (.Create ns se) w1)

/-- `(v *Vaults) prepareTLSSecrets(vr)`. The Go function has the named result
`err`; every `return` assigns it and the deferred function then rewrites a
non-nil `err` as `fmt.Errorf("prepare TLS secrets failed: %v", err)`. Here the
body is evaluated first and the deferred function is applied to its result. -/
def prepareTLSSecrets (E : Env W Key Cert Bytes) (vr : Vault) (s : St W Key Cert Bytes) :
    Except String Unit × St W Key Cert Bytes :=
  let body : Except String Unit × St W Key Cert Bytes :=
    match newCACert E s with
    | (.error err, s1) => (.error err, s1)
    | (.ok (caKey, caCrt), s1) =>
      match newEtcdClientTLSSecret E vr caKey caCrt s1 with
      | (.error err, s2) => (.error err, s2)
      | (.ok se, s2) =>
        match createSecret E vr.Namespace se s2 with
        | (.error err, s3) => (.error err, s3)
        | (.ok _, s3) =>
          match newEtcdServerTLSSecret E vr caKey caCrt defaultClusterDomain s3 with
          | (.error err, s4) => (.error err, s4)
          | (.ok se, s4) =>
            match createSecret E vr.Namespace se s4 with
            | (.error err, s5) => (.error err, s5)
            | (.ok _, s5) =>
              match newEtcdPeerTLSSecret E vr caKey caCrt defaultClusterDomain s5 with
              | (.error err, s6) => (.error err, s6)
              | (.ok se, s6) =>
                match createSecret E vr.Namespace se s6 with
                | (.error err, s7) => (.error err, s7)
                | (.ok _, s7) => (.ok (), s7)
  match body with
  | (.error err, s') => (.error ("prepare TLS secrets failed: " ++ err), s')
  | (.ok _, s') => (.ok (), s')

/-! ## What the collaborators received -/

/-- The `Create` calls of a log, oldest first: namespace and secret. -/
def creates (log : List (Call Key Cert Bytes)) : List (String × Secret Bytes) :=
  log.filterMap fun
    | .Create ns se => some (ns, se)
    | _ => none

/-- The configs handed to the two signing functions, oldest first. -/
def certConfigs (log : List (Call Key Cert Bytes)) : List CertConfig :=
  log.filterMap fun
    | .NewSelfSignedCACertificate config _ => some config
    | .NewSignedCertificate config _ _ _ => some config
    | _ => none

/-- The `NewSignedCertificate` calls of a log: config, leaf key, CA certificate
and CA key. -/
def signerCalls (log : List (Call Key Cert Bytes)) : List (CertConfig × Key × Cert × Key) :=
  log.filterMap fun
    | .NewSignedCertificate config key caCert caKey => some (config, key, caCert, caKey)
    | _ => none

/-- The `NewSelfSignedCACertificate` calls of a log. -/
def caCreations (log : List (Call Key Cert Bytes)) : List (CertConfig × Key) :=
  log.filterMap fun
    | .NewSelfSignedCACertificate config key => some (config, key)
    | _ => none

/-- The address lists handed to `NewAltNames`, oldest first. -/
def altNameCalls (log : List (Call Key Cert Bytes)) : List (List String) :=
  log.filterMap fun
    | .NewAltNames addrs => some addrs
    | _ => none

/-- The keys handed to `EncodePrivateKeyPEM`, oldest first. -/
def encodedPrivateKeys (log : List (Call Key Cert Bytes)) : List Key :=
  log.filterMap fun
    | .EncodePrivateKeyPEM key => some key
    | _ => none

/-- The number of `NewPrivateKey` calls of a log. -/
def keyGenerations (log : List (Call Key Cert Bytes)) : Nat :=
  (log.filterMap fun
    | .NewPrivateKey => some ()
    | _ => none).length

end Program

/-! ## The provisioning state machine of the specification

These definitions follow the words of the specification (sections 4.2 to 4.6
and 6), not the code. They name the stages of a run, so that the code can be
compared with them. -/

namespace Spec

/-- The three roles of spec section 4.3. -/
inductive Role where
  | client | server | peer
  deriving DecidableEq, Repr

/-- The stages of the orchestrator of spec section 4.6. -/
inductive Stage where
  | CreateCA | IssueClient | PersistClient | IssueServer | PersistServer | IssuePeer
  | PersistPeer
  deriving DecidableEq, Repr

/-- The issuance stages: those whose failure comes from key generation or
signing for a leaf. -/
def Stage.isIssuance : Stage → Bool
  | .IssueClient | .IssueServer | .IssuePeer => true
  | _ => false

/-- The terminal states of the orchestrator: `Completed`, or `Failed` with the
stage that failed and the message of the underlying cause. -/
inductive Outcome where
  | Completed
  | Failed (stage : Stage) (cause : String)
  deriving DecidableEq, Repr

/-- The output field names of a bundle (spec section 4.5, `fieldMap`). -/
structure FieldMap where
  key : String
  cert : String
  ca : String
  deriving DecidableEq, Repr

/-- The field names of each role, from the table of spec section 6. -/
def roleFields : Role → FieldMap
  | .client => ⟨"etcd-client.key", "etcd-client.crt", "etcd-client-ca.crt"⟩
  | .server => ⟨"server.key", "server.crt", "server-ca.crt"⟩
  | .peer => ⟨"peer.key", "peer.crt", "peer-ca.crt"⟩

/-- RoleProfileBuilder (spec section 4.3): the CertConfig of a role. -/
def roleProfile (role : Role) (memberServiceName namespaceName clusterDomain : String) :
    CertConfig :=
  match role with
  | .client =>
    { CommonName := "etcd client", Organization := ["coreos.com"], AltNames := ∅ }
  | .server =>
    { CommonName := "etcd server", Organization := ["coreos.com"],
      AltNames :=
        { "localhost",
          "*." ++ memberServiceName ++ "." ++ namespaceName ++ ".svc." ++ clusterDomain,
          memberServiceName ++ "-client." ++ namespaceName ++ ".svc." ++ clusterDomain } }
  | .peer =>
    { CommonName := "etcd peer", Organization := ["coreos.com"],
      AltNames :=
        { "*." ++ memberServiceName ++ "." ++ namespaceName ++ ".svc." ++ clusterDomain } }

section Machine

variable {W Key Cert Bytes : Type}

/-- The secret name of each role, produced by the naming collaborator. -/
def roleSecretName (E : Env W Key Cert Bytes) : Role → String → String
  | .client => E.EtcdClientTLSSecretName
  | .server => E.EtcdServerTLSSecretName
  | .peer => E.EtcdPeerTLSSecretName

/-- CertificateAuthority.createRoot (spec section 4.2): a fresh key, then a
self-signed certificate for the operator identity with no AltNames. -/
def createRoot (E : Env W Key Cert Bytes) (organization : List String) (w : W) :
    Except String (Key × Cert) × W :=
  match E.NewPrivateKey w with
  | (.error cause, w1) => (.error cause, w1)
  | (.ok key, w1) =>
    match E.NewSelfSignedCACertificate
      { CommonName := "vault operator CA", Organization := organization, AltNames := ∅ }
      key w1 with
    | (.error cause, w2) => (.error cause, w2)
    | (.ok cert, w2) => (.ok (key, cert), w2)

/-- CertificateIssuer.issue (spec section 4.4): a fresh key, then a certificate
for `config` signed by the CA; a complete pair or nothing. -/
def issue (E : Env W Key Cert Bytes) (caKey : Key) (caCert : Cert) (config : CertConfig)
    (w : W) : Except String (Key × Cert) × W :=
  match E.NewPrivateKey w with
  | (.error cause, w1) => (.error cause, w1)
  | (.ok key, w1) =>
    match E.NewSignedCertificate config key caCert caKey w1 with
    | (.error cause, w2) => (.error cause, w2)
    | (.ok cert, w2) => (.ok (key, cert), w2)

/-- CredentialBundleAssembler.assemble (spec section 4.5): the PEM encodings of
the key, the leaf certificate and the CA certificate under the field names of
`fieldMap`, with the target name and the label set. -/
def assemble (E : Env W Key Cert Bytes) (secretName : String) (labels : GoMap String)
    (key : Key) (cert caCert : Cert) (fieldMap : FieldMap) : Secret Bytes :=
  { Name := secretName
    Labels := labels
    Data := GoMap.lit
      [ (fieldMap.key, E.EncodePrivateKeyPEM key),
        (fieldMap.cert, E.EncodeCertificatePEM cert),
        (fieldMap.ca, E.EncodeCertificatePEM caCert) ] }

/-- The bundle of a role for the cluster `vr`. -/
def roleBundle (E : Env W Key Cert Bytes) (vr : Vault) (role : Role) (key : Key)
    (cert caCert : Cert) : Secret Bytes :=
  assemble E (roleSecretName E role vr.Name) (E.LabelsForVault vr.Name) key cert caCert
    (roleFields role)

/-- The config of a role for the cluster `vr` in the default cluster domain. -/
def roleConfig (E : Env W Key Cert Bytes) (vr : Vault) (role : Role) : CertConfig :=
  roleProfile role (E.EtcdNameForVault vr.Name) vr.Namespace "cluster.local"

/-- ProvisioningOrchestrator (spec section 4.6): CreateCA, then for client,
server and peer in this order Issue and Persist; the first failure is terminal,
with no retry and no rollback. Returns the terminal state and the world the
collaborators are left in. -/
def provision (E : Env W Key Cert Bytes) (vr : Vault) (w : W) : Outcome × W :=
  match createRoot E ["coreos.com"] w with
  | (.error cause, w1) => (.Failed .CreateCA cause, w1)
  | (.ok (caKey, caCert), w1) =>
  match issue E caKey caCert (roleConfig E vr .client) w1 with
  | (.error cause, w2) => (.Failed .IssueClient cause, w2)
  | (.ok (key1, cert1), w2) =>
  match E.Create vr.Namespace (roleBundle E vr .client key1 cert1 caCert) w2 with
  | (.error cause, w3) => (.Failed .PersistClient cause, w3)
  | (.ok _, w3) =>
  match issue E caKey caCert (roleConfig E vr .server) w3 with
  | (.error cause, w4) => (.Failed .IssueServer cause, w4)
  | (.ok (key2, cert2), w4) =>
  match E.Create vr.Namespace (roleBundle E vr .server key2 cert2 caCert) w4 with
  | (.error cause, w5) => (.Failed .PersistServer cause, w5)
  | (.ok _, w5) =>
  match issue E caKey caCert (roleConfig E vr .peer) w5 with
  | (.error cause, w6) => (.Failed .IssuePeer cause, w6)
  | (.ok (key3, cert3), w6) =>
  match E.Create vr.Namespace (roleBundle E vr .peer key3 cert3 caCert) w6 with
  | (.error cause, w7) => (.Failed .PersistPeer cause, w7)
  | (.ok _, w7) => (.Completed, w7)

/-- The number of Persist stages a run reaches before it ends in `o`. -/
def persistsReached : Outcome → Nat
  | .Failed .CreateCA _ | .Failed .IssueClient _ => 0
  | .Failed .PersistClient _ | .Failed .IssueServer _ => 1
  | .Failed .PersistServer _ | .Failed .IssuePeer _ => 2
  | .Failed .PersistPeer _ | .Completed => 3

end Machine

end Spec

/-! ## A scripted environment

A concrete instance of the collaborators, used to run the program on concrete
inputs. The world is the number of fallible calls made so far; the call whose
number is `failAt` fails with the message "boom". Keys are numbered by the
call that generated them, a certificate records what it was issued for, and
the PEM encoders are injective tags. -/

/-- A certificate of the scripted environment. -/
structure DemoCert where
  commonName : String
  subjectKey : Nat
  issuerKey : Nat
  deriving DecidableEq, Repr

/-- A PEM block of the scripted environment. -/
inductive DemoPem where
  | privateKey (key : Nat)
  | certificate (cert : DemoCert)
  deriving DecidableEq, Repr

/-- The outcome of the fallible call number `n` of the script. -/
def scripted {α : Type} (failAt : Option Nat) (n : Nat) (a : α) : Except String α × Nat :=
  (if failAt = some n then .error "boom" else .ok a, n + 1)

/-- The scripted environment. -/
def demoEnv (failAt : Option Nat) : Env Nat Nat DemoCert DemoPem where
  NewPrivateKey n := scripted failAt n n
  NewSelfSignedCACertificate config key n := scripted failAt n ⟨config.CommonName, key, key⟩
  NewSignedCertificate config key caCert _ n :=
    scripted failAt n ⟨config.CommonName, key, caCert.subjectKey⟩
  EncodePrivateKeyPEM := .privateKey
  EncodeCertificatePEM := .certificate
  EtcdNameForVault name := name ++ "-etcd"
  EtcdClientTLSSecretName name := name ++ "-etcd-client-tls"
  EtcdServerTLSSecretName name := name ++ "-etcd-server-tls"
  EtcdPeerTLSSecretName name := name ++ "-etcd-peer-tls"
  LabelsForVault name := [("app", "vault"), ("vault_cluster", name)]
  Create _ _ n := scripted failAt n ()

/-- The cluster of the examples of the specification. -/
def demoVault : Vault := ⟨"vault1", "ns1"⟩

/-- PEM decoding of a certificate block in the scripted environment. -/
def demoDecodeCertificatePEM : DemoPem → Option DemoCert
  | .certificate cert => some cert
  | .privateKey _ => none

/-- A CA certificate of the scripted environment, for the key 0. -/
def demoCACert : DemoCert := ⟨"vault operator CA", 0, 0⟩

/-! ## The runs of `prepareTLSSecrets`, path by path -/

section Paths

open Spec

variable {W Key Cert Bytes : Type}

/-- The config `newCACert` builds. -/
def caConfig : CertConfig :=
  { CommonName := "vault operator CA", Organization := orgForTLSCert }

/-- The address list each role's constructor hands to `newTLSSecret`, in the
default cluster domain. -/
def roleAddrs (E : Env W Key Cert Bytes) (vr : Vault) : Role → List String
  | .client => []
  | .server =>
    [ "localhost",
      "*." ++ E.EtcdNameForVault vr.Name ++ "." ++ vr.Namespace ++ ".svc." ++ defaultClusterDomain,
      E.EtcdNameForVault vr.Name ++ "-client." ++ vr.Namespace ++ ".svc." ++ defaultClusterDomain ]
  | .peer =>
    [ "*." ++ E.EtcdNameForVault vr.Name ++ "." ++ vr.Namespace ++ ".svc." ++ defaultClusterDomain ]

/-- The common name each role's constructor hands to `newTLSSecret`. -/
def roleCommonName : Role → String
  | .client => "etcd client"
  | .server => "etcd server"
  | .peer => "etcd peer"

/-- The config `newTLSSecret` builds for a role. -/
def leafConfig (E : Env W Key Cert Bytes) (vr : Vault) (role : Role) : CertConfig :=
  { CommonName := roleCommonName role
    Organization := orgForTLSCert
    AltNames := NewAltNames (roleAddrs E vr role) }

/-- The calls of a successful `newCACert`. -/
def caCalls (caKey : Key) : List (Call Key Cert Bytes) :=
  [.NewPrivateKey, .NewSelfSignedCACertificate caConfig caKey]

/-- The calls of a role up to a failing key generation. -/
def keyFailCalls (E : Env W Key Cert Bytes) (vr : Vault) (role : Role) :
    List (Call Key Cert Bytes) :=
  [.NewAltNames (roleAddrs E vr role), .NewPrivateKey]

/-- The calls of a role up to and including the signer call. -/
def issueCalls (E : Env W Key Cert Bytes) (vr : Vault) (role : Role) (key : Key)
    (caCrt : Cert) (caKey : Key) : List (Call Key Cert Bytes) :=
  [.NewAltNames (roleAddrs E vr role), .NewPrivateKey,
    .NewSignedCertificate (leafConfig E vr role) key caCrt caKey]

/-- The calls of a role up to and including the `Create` call. -/
def roleCalls (E : Env W Key Cert Bytes) (vr : Vault) (role : Role) (key : Key) (crt : Cert)
    (caCrt : Cert) (caKey : Key) : List (Call Key Cert Bytes) :=
  issueCalls E vr role key caCrt caKey ++
    [.EncodePrivateKeyPEM key, .EncodeCertificatePEM crt, .EncodeCertificatePEM caCrt,
      .Create vr.Namespace (roleBundle E vr role key crt caCrt)]

/-- The constructor the code calls for a role, in the default cluster domain. -/
def newRoleTLSSecret (E : Env W Key Cert Bytes) (vr : Vault) (role : Role) (caKey : Key)
    (caCrt : Cert) (s : St W Key Cert Bytes) :
    Except String (Secret Bytes) × St W Key Cert Bytes :=
  match role with
  | .client => newEtcdClientTLSSecret E vr caKey caCrt s
  | .server => newEtcdServerTLSSecret E vr caKey caCrt defaultClusterDomain s
  | .peer => newEtcdPeerTLSSecret E vr caKey caCrt defaultClusterDomain s

end Paths

/-! ## Predicates used to state the claims -/

section Predicates

variable {W Key Cert Bytes : Type}

/-- The secret `se`, returned in state `s'` by a constructor called in state
`s`, is the bundle of one issuance: `NewPrivateKey` returned a key in `s`, the
signer returned a certificate for `config`, that key, the CA certificate and
the CA key, and `se` has the given name and labels and holds exactly three
fields, the PEM encodings of that key, of that certificate and of the CA
certificate that was passed in. -/
def IsIssuedBundle (E : Env W Key Cert Bytes) (caKey : Key) (caCrt : Cert)
    (config : CertConfig) (s s' : St W Key Cert Bytes) (se : Secret Bytes)
    (name : String) (labels : GoMap String) (keyField certField caField : String) : Prop :=
  ∃ key crt w1,
    E.NewPrivateKey s.world = (.ok key, w1) ∧
    E.NewSignedCertificate config key caCrt caKey w1 = (.ok crt, s'.world) ∧
    se.Name = name ∧ se.Labels = labels ∧
    se.Data.Perm
      [ (keyField, E.EncodePrivateKeyPEM key),
        (certField, E.EncodeCertificatePEM crt),
        (caField, E.EncodeCertificatePEM caCrt) ] ∧
    se.Data.get? keyField = some (E.EncodePrivateKeyPEM key) ∧
    se.Data.get? certField = some (E.EncodeCertificatePEM crt) ∧
    se.Data.get? caField = some (E.EncodeCertificatePEM caCrt)

/-- The field `certField` of the secret `se`, returned in state `s'`, holds the
PEM encoding of a certificate that the signer returned for a config whose
CommonName is `commonName`, and decoding that field gives a certificate with
that CommonName, which is not the CommonName of the CA. -/
def CertFieldIssuedAs (E : Env W Key Cert Bytes) (decodeCertificatePEM : Bytes → Option Cert)
    (commonNameOf : Cert → String) (caKey : Key) (caCrt : Cert) (s' : St W Key Cert Bytes)
    (se : Secret Bytes) (certField commonName : String) : Prop :=
  ∃ config key w1 crt,
    config.CommonName = commonName ∧
    E.NewSignedCertificate config key caCrt caKey w1 = (.ok crt, s'.world) ∧
    se.Data.get? certField = some (E.EncodeCertificatePEM crt) ∧
    ((se.Data.get? certField).bind decodeCertificatePEM).map commonNameOf = some commonName ∧
    ((se.Data.get? certField).bind decodeCertificatePEM).map commonNameOf ≠
      some "vault operator CA"

/-- The result `r` of a constructor is a secret, returned in the world `w2`,
with the given name and labels, that holds exactly three fields: the PEM
encodings of `key`, of `crt` and of `caCrt` under the three field names. -/
def ReturnsBundle (E : Env W Key Cert Bytes)
    (r : Except String (Secret Bytes) × St W Key Cert Bytes) (w2 : W)
    (name : String) (labels : GoMap String) (keyField certField caField : String)
    (key : Key) (crt caCrt : Cert) : Prop :=
  ∃ se s',
    r = (.ok se, s') ∧ s'.world = w2 ∧
    se.Name = name ∧ se.Labels = labels ∧
    se.Data.Perm
      [ (keyField, E.EncodePrivateKeyPEM key),
        (certField, E.EncodeCertificatePEM crt),
        (caField, E.EncodeCertificatePEM caCrt) ] ∧
    se.Data.get? keyField = some (E.EncodePrivateKeyPEM key) ∧
    se.Data.get? certField = some (E.EncodeCertificatePEM crt) ∧
    se.Data.get? caField = some (E.EncodeCertificatePEM caCrt)

/-- The result `r` of a constructor is a secret whose field `certField` holds
the PEM encoding of `crt`, and decoding that field gives a certificate whose
CommonName is `commonName` and not the CommonName of the CA. -/
def ReturnsCertField (E : Env W Key Cert Bytes) (decodeCertificatePEM : Bytes → Option Cert)
    (commonNameOf : Cert → String)
    (r : Except String (Secret Bytes) × St W Key Cert Bytes)
    (certField commonName : String) (crt : Cert) : Prop :=
  ∃ se s',
    r = (.ok se, s') ∧
    se.Data.get? certField = some (E.EncodeCertificatePEM crt) ∧
    ((se.Data.get? certField).bind decodeCertificatePEM).map commonNameOf = some commonName ∧
    ((se.Data.get? certField).bind decodeCertificatePEM).map commonNameOf ≠
      some "vault operator CA"

end Predicates

/-! ## Step lemmas -/

section Steps

open Spec

variable {W Key Cert Bytes : Type}

theorem leafConfig_eq_roleConfig (E : Env W Key Cert Bytes) (vr : Vault) (role : Role) :
    leafConfig E vr role = roleConfig E vr role := by
  cases role <;>
    simp [leafConfig, roleConfig, roleProfile, roleCommonName, roleAddrs, NewAltNames,
      orgForTLSCert, defaultClusterDomain]

theorem newCACert_keyFail (E : Env W Key Cert Bytes) (s : St W Key Cert Bytes) {c : String} {w1 : W}
    (h1 : E.NewPrivateKey s.world = (.error c, w1)) :
    newCACert E s = (.error c, ⟨w1, s.log ++ [.NewPrivateKey]⟩) := by
  simp only [newCACert, h1, St.record]

theorem newCACert_signFail (E : Env W Key Cert Bytes) (s : St W Key Cert Bytes) {caKey : Key} {c : String} {w1 w2 : W}
    (h1 : E.NewPrivateKey s.world = (.ok caKey, w1))
    (h2 : E.NewSelfSignedCACertificate caConfig caKey w1 = (.error c, w2)) :
    newCACert E s = (.error c, ⟨w2, s.log ++ caCalls caKey⟩) := by
  simp only [caConfig] at h2
  simp only [newCACert, h1, h2, St.record, caCalls, caConfig, List.append_assoc, List.singleton_append]

theorem newCACert_ok (E : Env W Key Cert Bytes) (s : St W Key Cert Bytes) {caKey : Key} {caCrt : Cert} {w1 w2 : W}
    (h1 : E.NewPrivateKey s.world = (.ok caKey, w1))
    (h2 : E.NewSelfSignedCACertificate caConfig caKey w1 = (.ok caCrt, w2)) :
    newCACert E s = (.ok (caKey, caCrt), ⟨w2, s.log ++ caCalls caKey⟩) := by
  simp only [caConfig] at h2
  simp only [newCACert, h1, h2, St.record, caCalls, caConfig, List.append_assoc, List.singleton_append]

theorem newTLSSecret_keyFail (E : Env W Key Cert Bytes) (vr : Vault) (caKey : Key) (caCrt : Cert)
    (cn name : String) (addrs : List String) (fm : GoMap String) (s : St W Key Cert Bytes)
    {c : String} {w1 : W}
    (h1 : E.NewPrivateKey s.world = (.error c, w1)) :
    newTLSSecret E vr caKey caCrt cn name addrs fm s =
      (.error ("new TLS secret failed: " ++ c), ⟨w1, s.log ++ [.NewAltNames addrs, .NewPrivateKey]⟩) := by
  simp only [newTLSSecret, newKeyAndCert, h1, St.record, List.append_assoc, List.singleton_append]

theorem newTLSSecret_signFail (E : Env W Key Cert Bytes) (vr : Vault) (caKey : Key) (caCrt : Cert)
    (cn name : String) (addrs : List String) (fm : GoMap String) (s : St W Key Cert Bytes)
    {key : Key} {c : String} {w1 w2 : W}
    (h1 : E.NewPrivateKey s.world = (.ok key, w1))
    (h2 : E.NewSignedCertificate ⟨cn, orgForTLSCert, NewAltNames addrs⟩ key caCrt caKey w1 = (.error c, w2)) :
    newTLSSecret E vr caKey caCrt cn name addrs fm s =
      (.error ("new TLS secret failed: " ++ c),
        ⟨w2, s.log ++ [.NewAltNames addrs, .NewPrivateKey,
          .NewSignedCertificate ⟨cn, orgForTLSCert, NewAltNames addrs⟩ key caCrt caKey]⟩) := by
  simp only [newTLSSecret, newKeyAndCert, h1, h2, St.record, List.append_assoc, List.singleton_append, List.cons_append, List.nil_append]

theorem newTLSSecret_ok (E : Env W Key Cert Bytes) (vr : Vault) (caKey : Key) (caCrt : Cert)
    (cn name : String) (addrs : List String) (fm : GoMap String) (s : St W Key Cert Bytes)
    {key : Key} {crt : Cert} {w1 w2 : W}
    (h1 : E.NewPrivateKey s.world = (.ok key, w1))
    (h2 : E.NewSignedCertificate ⟨cn, orgForTLSCert, NewAltNames addrs⟩ key caCrt caKey w1 = (.ok crt, w2)) :
    newTLSSecret E vr caKey caCrt cn name addrs fm s =
      (.ok ⟨name, E.LabelsForVault vr.Name, GoMap.lit
          [ (fm.index "key", E.EncodePrivateKeyPEM key),
            (fm.index "cert", E.EncodeCertificatePEM crt),
            (fm.index "ca", E.EncodeCertificatePEM caCrt) ]⟩,
        ⟨w2, s.log ++ [.NewAltNames addrs, .NewPrivateKey,
          .NewSignedCertificate ⟨cn, orgForTLSCert, NewAltNames addrs⟩ key caCrt caKey,
          .EncodePrivateKeyPEM key, .EncodeCertificatePEM crt, .EncodeCertificatePEM caCrt]⟩) := by
  simp only [newTLSSecret, newKeyAndCert, h1, h2, St.record, List.append_assoc, List.singleton_append, List.cons_append, List.nil_append]

theorem newRoleTLSSecret_keyFail (E : Env W Key Cert Bytes) (vr : Vault) (role : Role)
    (caKey : Key) (caCrt : Cert) (s : St W Key Cert Bytes) {c : String} {w1 : W}
    (h1 : E.NewPrivateKey s.world = (.error c, w1)) :
    newRoleTLSSecret E vr role caKey caCrt s =
      (.error ("new TLS secret failed: " ++ c), ⟨w1, s.log ++ keyFailCalls E vr role⟩) := by
  cases role <;> exact newTLSSecret_keyFail E vr caKey caCrt _ _ _ _ s h1

theorem newRoleTLSSecret_signFail (E : Env W Key Cert Bytes) (vr : Vault) (role : Role)
    (caKey : Key) (caCrt : Cert) (s : St W Key Cert Bytes) {key : Key} {c : String} {w1 w2 : W}
    (h1 : E.NewPrivateKey s.world = (.ok key, w1))
    (h2 : E.NewSignedCertificate (leafConfig E vr role) key caCrt caKey w1 = (.error c, w2)) :
    newRoleTLSSecret E vr role caKey caCrt s =
      (.error ("new TLS secret failed: " ++ c),
        ⟨w2, s.log ++ issueCalls E vr role key caCrt caKey⟩) := by
  cases role <;> exact newTLSSecret_signFail E vr caKey caCrt _ _ _ _ s h1 h2

theorem newRoleTLSSecret_ok (E : Env W Key Cert Bytes) (vr : Vault) (role : Role)
    (caKey : Key) (caCrt : Cert) (s : St W Key Cert Bytes) {key : Key} {crt : Cert} {w1 w2 : W}
    (h1 : E.NewPrivateKey s.world = (.ok key, w1))
    (h2 : E.NewSignedCertificate (leafConfig E vr role) key caCrt caKey w1 = (.ok crt, w2)) :
    newRoleTLSSecret E vr role caKey caCrt s =
      (.ok (roleBundle E vr role key crt caCrt),
        ⟨w2, s.log ++ (issueCalls E vr role key caCrt caKey ++
          [.EncodePrivateKeyPEM key, .EncodeCertificatePEM crt, .EncodeCertificatePEM caCrt])⟩) := by
  cases role <;> exact newTLSSecret_ok E vr caKey caCrt _ _ _ _ s h1 h2

theorem createRoot_keyFail (E : Env W Key Cert Bytes) (w : W) {c : String} {w1 : W}
    (h1 : E.NewPrivateKey w = (.error c, w1)) :
    createRoot E ["coreos.com"] w = (.error c, w1) := by
  simp only [createRoot, h1]

theorem createRoot_signFail (E : Env W Key Cert Bytes) (w : W) {caKey : Key} {c : String}
    {w1 w2 : W} (h1 : E.NewPrivateKey w = (.ok caKey, w1))
    (h2 : E.NewSelfSignedCACertificate caConfig caKey w1 = (.error c, w2)) :
    createRoot E ["coreos.com"] w = (.error c, w2) := by
  simp only [caConfig, orgForTLSCert] at h2
  simp only [createRoot, h1, h2]

theorem createRoot_ok (E : Env W Key Cert Bytes) (w : W) {caKey : Key} {caCrt : Cert}
    {w1 w2 : W} (h1 : E.NewPrivateKey w = (.ok caKey, w1))
    (h2 : E.NewSelfSignedCACertificate caConfig caKey w1 = (.ok caCrt, w2)) :
    createRoot E ["coreos.com"] w = (.ok (caKey, caCrt), w2) := by
  simp only [caConfig, orgForTLSCert] at h2
  simp only [createRoot, h1, h2]

theorem issue_keyFail (E : Env W Key Cert Bytes) (caKey : Key) (caCrt : Cert)
    (config : CertConfig) (w : W) {c : String} {w1 : W}
    (h1 : E.NewPrivateKey w = (.error c, w1)) :
    issue E caKey caCrt config w = (.error c, w1) := by
  simp only [issue, h1]

theorem issue_signFail (E : Env W Key Cert Bytes) (caKey : Key) (caCrt : Cert)
    (config : CertConfig) (w : W) {key : Key} {c : String} {w1 w2 : W}
    (h1 : E.NewPrivateKey w = (.ok key, w1))
    (h2 : E.NewSignedCertificate config key caCrt caKey w1 = (.error c, w2)) :
    issue E caKey caCrt config w = (.error c, w2) := by
  simp only [issue, h1, h2]

theorem issue_ok (E : Env W Key Cert Bytes) (caKey : Key) (caCrt : Cert)
    (config : CertConfig) (w : W) {key : Key} {crt : Cert} {w1 w2 : W}
    (h1 : E.NewPrivateKey w = (.ok key, w1))
    (h2 : E.NewSignedCertificate config key caCrt caKey w1 = (.ok crt, w2)) :
    issue E caKey caCrt config w = (.ok (key, crt), w2) := by
  simp only [issue, h1, h2]

theorem createSecret_fail (E : Env W Key Cert Bytes) (ns : String) (se : Secret Bytes)
    (s : St W Key Cert Bytes) {c : String} {w1 : W}
    (h : E.Create ns se s.world = (.error c, w1)) :
    createSecret E ns se s = (.error c, ⟨w1, s.log ++ [.Create ns se]⟩) := by
  simp only [createSecret, h, St.record]

theorem createSecret_ok (E : Env W Key Cert Bytes) (ns : String) (se : Secret Bytes)
    (s : St W Key Cert Bytes) {u : Unit} {w1 : W}
    (h : E.Create ns se s.world = (.ok u, w1)) :
    createSecret E ns se s = (.ok u, ⟨w1, s.log ++ [.Create ns se]⟩) := by
  simp only [createSecret, h, St.record]

/-- Symbolic execution of `prepareTLSSecrets` next to the state machine of the
specification: a property of (result and final state, outcome and final world)
holds of every run once it holds on each of the twelve paths, named by the
collaborator call that fails first. -/
theorem prepareTLSSecrets_cases (E : Env W Key Cert Bytes) (vr : Vault) (w : W)
    (motive : Except String Unit × St W Key Cert Bytes → Outcome × W → Prop)
    (caKeyFail : ∀ c w1, E.NewPrivateKey w = (.error c, w1) →
      motive (.error ("prepare TLS secrets failed: " ++ c), ⟨w1, [.NewPrivateKey]⟩) (.Failed .CreateCA c, w1))
    (caSignFail : ∀ caKey w1 c w2, E.NewPrivateKey w = (.ok caKey, w1) →
      E.NewSelfSignedCACertificate caConfig caKey w1 = (.error c, w2) →
      motive (.error ("prepare TLS secrets failed: " ++ c), ⟨w2, caCalls caKey⟩) (.Failed .CreateCA c, w2))
    (clientKeyFail : ∀ caKey w1 caCrt w2  c wf, E.NewPrivateKey w = (.ok caKey, w1) →
      E.NewSelfSignedCACertificate caConfig caKey w1 = (.ok caCrt, w2) →
      motive (.error ("prepare TLS secrets failed: " ++ ("new TLS secret failed: " ++ c)),
          ⟨wf, caCalls caKey ++ keyFailCalls E vr .client⟩)
        (.Failed .IssueClient c, wf))
    (clientSignFail : ∀ caKey w1 caCrt w2  key1 c wf, E.NewPrivateKey w = (.ok caKey, w1) →
      E.NewSelfSignedCACertificate caConfig caKey w1 = (.ok caCrt, w2) →
      motive (.error ("prepare TLS secrets failed: " ++ ("new TLS secret failed: " ++ c)),
          ⟨wf, caCalls caKey ++ issueCalls E vr .client key1 caCrt caKey⟩)
        (.Failed .IssueClient c, wf))
    (clientCreateFail : ∀ caKey w1 caCrt w2 key1 crt1 c wf, E.NewPrivateKey w = (.ok caKey, w1) →
      E.NewSelfSignedCACertificate caConfig caKey w1 = (.ok caCrt, w2) →
      motive (.error ("prepare TLS secrets failed: " ++ c), ⟨wf, caCalls caKey ++ roleCalls E vr .client key1 crt1 caCrt caKey⟩)
        (.Failed .PersistClient c, wf))
    (serverKeyFail : ∀ caKey w1 caCrt w2 key1 crt1 c wf, E.NewPrivateKey w = (.ok caKey, w1) →
      E.NewSelfSignedCACertificate caConfig caKey w1 = (.ok caCrt, w2) →
      motive (.error ("prepare TLS secrets failed: " ++ ("new TLS secret failed: " ++ c)),
          ⟨wf, caCalls caKey ++ roleCalls E vr .client key1 crt1 caCrt caKey ++ keyFailCalls E vr .server⟩)
        (.Failed .IssueServer c, wf))
    (serverSignFail : ∀ caKey w1 caCrt w2 key1 crt1 key2 c wf, E.NewPrivateKey w = (.ok caKey, w1) →
      E.NewSelfSignedCACertificate caConfig caKey w1 = (.ok caCrt, w2) →
      motive (.error ("prepare TLS secrets failed: " ++ ("new TLS secret failed: " ++ c)),
          ⟨wf, caCalls caKey ++ roleCalls E vr .client key1 crt1 caCrt caKey ++ issueCalls E vr .server key2 caCrt caKey⟩)
        (.Failed .IssueServer c, wf))
    (serverCreateFail : ∀ caKey w1 caCrt w2 key1 crt1 key2 crt2 c wf, E.NewPrivateKey w = (.ok caKey, w1) →
      E.NewSelfSignedCACertificate caConfig caKey w1 = (.ok caCrt, w2) →
      motive (.error ("prepare TLS secrets failed: " ++ c), ⟨wf, caCalls caKey ++ roleCalls E vr .client key1 crt1 caCrt caKey ++ roleCalls E vr .server key2 crt2 caCrt caKey⟩)
        (.Failed .PersistServer c, wf))
    (peerKeyFail : ∀ caKey w1 caCrt w2 key1 crt1 key2 crt2 c wf, E.NewPrivateKey w = (.ok caKey, w1) →
      E.NewSelfSignedCACertificate caConfig caKey w1 = (.ok caCrt, w2) →
      motive (.error ("prepare TLS secrets failed: " ++ ("new TLS secret failed: " ++ c)),
          ⟨wf, caCalls caKey ++ roleCalls E vr .client key1 crt1 caCrt caKey ++ roleCalls E vr .server key2 crt2 caCrt caKey ++ keyFailCalls E vr .peer⟩)
        (.Failed .IssuePeer c, wf))
    (peerSignFail : ∀ caKey w1 caCrt w2 key1 crt1 key2 crt2 key3 c wf, E.NewPrivateKey w = (.ok caKey, w1) →
      E.NewSelfSignedCACertificate caConfig caKey w1 = (.ok caCrt, w2) →
      motive (.error ("prepare TLS secrets failed: " ++ ("new TLS secret failed: " ++ c)),
          ⟨wf, caCalls caKey ++ roleCalls E vr .client key1 crt1 caCrt caKey ++ roleCalls E vr .server key2 crt2 caCrt caKey ++ issueCalls E vr .peer key3 caCrt caKey⟩)
        (.Failed .IssuePeer c, wf))
    (peerCreateFail : ∀ caKey w1 caCrt w2 key1 crt1 key2 crt2 key3 crt3 c wf, E.NewPrivateKey w = (.ok caKey, w1) →
      E.NewSelfSignedCACertificate caConfig caKey w1 = (.ok caCrt, w2) →
      motive (.error ("prepare TLS secrets failed: " ++ c), ⟨wf, caCalls caKey ++ roleCalls E vr .client key1 crt1 caCrt caKey ++ roleCalls E vr .server key2 crt2 caCrt caKey ++ roleCalls E vr .peer key3 crt3 caCrt caKey⟩)
        (.Failed .PersistPeer c, wf))
    (completed : ∀ caKey w1 caCrt w2 key1 crt1 key2 crt2 key3 crt3 wf, E.NewPrivateKey w = (.ok caKey, w1) →
      E.NewSelfSignedCACertificate caConfig caKey w1 = (.ok caCrt, w2) →
      motive (.ok (), ⟨wf, caCalls caKey ++ roleCalls E vr .client key1 crt1 caCrt caKey ++ roleCalls E vr .server key2 crt2 caCrt caKey ++ roleCalls E vr .peer key3 crt3 caCrt caKey⟩) (.Completed, wf)) :
    motive (prepareTLSSecrets E vr (St.init w)) (provision E vr w) := by
  rcases h1 : E.NewPrivateKey w with ⟨c | caKey, w1⟩
  · have a : newCACert E (St.init w) = (.error c, ⟨w1, [.NewPrivateKey]⟩) :=
      newCACert_keyFail E (St.init w) h1
    have b : createRoot E ["coreos.com"] w = (.error c, w1) := createRoot_keyFail E w h1
    simp only [prepareTLSSecrets, provision, a, b]
    exact caKeyFail c w1 h1
  rcases h2 : E.NewSelfSignedCACertificate caConfig caKey w1 with ⟨c | caCrt, w2⟩
  · have a : newCACert E (St.init w) = (.error c, ⟨w2, caCalls caKey⟩) :=
      newCACert_signFail E (St.init w) h1 h2
    have b : createRoot E ["coreos.com"] w = (.error c, w2) := createRoot_signFail E w h1 h2
    simp only [prepareTLSSecrets, provision, a, b]
    exact caSignFail caKey w1 c w2 h1 h2
  have a0 : newCACert E (St.init w) = (.ok (caKey, caCrt), ⟨w2, caCalls caKey⟩) :=
    newCACert_ok E (St.init w) h1 h2
  have b0 : createRoot E ["coreos.com"] w = (.ok (caKey, caCrt), w2) := createRoot_ok E w h1 h2
  -- client
  rcases hk1 : E.NewPrivateKey w2 with ⟨c | key1, u1⟩
  · have a : newEtcdClientTLSSecret E vr caKey caCrt (⟨w2, caCalls caKey⟩ : St W Key Cert Bytes) =
        (.error ("new TLS secret failed: " ++ c), ⟨u1, caCalls caKey ++ keyFailCalls E vr .client⟩) :=
      newRoleTLSSecret_keyFail E vr .client caKey caCrt (⟨w2, caCalls caKey⟩ : St W Key Cert Bytes) hk1
    have b : issue E caKey caCrt (roleConfig E vr .client) w2 = (.error c, u1) :=
      issue_keyFail E caKey caCrt _ w2 hk1
    simp only [prepareTLSSecrets, provision, a0, b0, a, b]
    exact clientKeyFail caKey w1 caCrt w2  c u1 h1 h2
  rcases hs1 : E.NewSignedCertificate (leafConfig E vr .client) key1 caCrt caKey u1
    with ⟨c | crt1, v1⟩
  · have a : newEtcdClientTLSSecret E vr caKey caCrt (⟨w2, caCalls caKey⟩ : St W Key Cert Bytes) =
        (.error ("new TLS secret failed: " ++ c), ⟨v1, caCalls caKey ++ issueCalls E vr .client key1 caCrt caKey⟩) :=
      newRoleTLSSecret_signFail E vr .client caKey caCrt (⟨w2, caCalls caKey⟩ : St W Key Cert Bytes) hk1 hs1
    have b : issue E caKey caCrt (roleConfig E vr .client) w2 = (.error c, v1) :=
      issue_signFail E caKey caCrt _ w2 hk1 (leafConfig_eq_roleConfig E vr .client ▸ hs1)
    simp only [prepareTLSSecrets, provision, a0, b0, a, b]
    exact clientSignFail caKey w1 caCrt w2  key1 c v1 h1 h2
  have a1 : newEtcdClientTLSSecret E vr caKey caCrt (⟨w2, caCalls caKey⟩ : St W Key Cert Bytes) =
      (.ok (roleBundle E vr .client key1 crt1 caCrt),
        ⟨v1, caCalls caKey ++ (issueCalls E vr .client key1 caCrt caKey ++
          [.EncodePrivateKeyPEM key1, .EncodeCertificatePEM crt1,
            .EncodeCertificatePEM caCrt])⟩) :=
    newRoleTLSSecret_ok E vr .client caKey caCrt (⟨w2, caCalls caKey⟩ : St W Key Cert Bytes) hk1 hs1
  have b1 : issue E caKey caCrt (roleConfig E vr .client) w2 = (.ok (key1, crt1), v1) :=
    issue_ok E caKey caCrt _ w2 hk1 (leafConfig_eq_roleConfig E vr .client ▸ hs1)
  rcases hc1 : E.Create vr.Namespace (roleBundle E vr .client key1 crt1 caCrt) v1
    with ⟨c | u, x1⟩
  · have a := createSecret_fail E vr.Namespace (roleBundle E vr .client key1 crt1 caCrt)
      (⟨v1, caCalls caKey ++ (issueCalls E vr .client key1 caCrt caKey ++
          [.EncodePrivateKeyPEM key1, .EncodeCertificatePEM crt1,
            .EncodeCertificatePEM caCrt])⟩ : St W Key Cert Bytes) hc1
    simp only [prepareTLSSecrets, provision, a0, b0, a1, b1, a, hc1]
    exact clientCreateFail caKey w1 caCrt w2 key1 crt1 c x1 h1 h2
  have c1 : createSecret E vr.Namespace (roleBundle E vr .client key1 crt1 caCrt)
      (⟨v1, caCalls caKey ++ (issueCalls E vr .client key1 caCrt caKey ++
          [.EncodePrivateKeyPEM key1, .EncodeCertificatePEM crt1,
            .EncodeCertificatePEM caCrt])⟩ : St W Key Cert Bytes) =
      (.ok u, ⟨x1, caCalls caKey ++ roleCalls E vr .client key1 crt1 caCrt caKey⟩) :=
    createSecret_ok E vr.Namespace _ _ hc1
  -- server
  rcases hk2 : E.NewPrivateKey x1 with ⟨c | key2, u2⟩
  · have a : newEtcdServerTLSSecret E vr caKey caCrt defaultClusterDomain (⟨x1, caCalls caKey ++ roleCalls E vr .client key1 crt1 caCrt caKey⟩ : St W Key Cert Bytes) =
        (.error ("new TLS secret failed: " ++ c), ⟨u2, caCalls caKey ++ roleCalls E vr .client key1 crt1 caCrt caKey ++ keyFailCalls E vr .server⟩) :=
      newRoleTLSSecret_keyFail E vr .server caKey caCrt (⟨x1, caCalls caKey ++ roleCalls E vr .client key1 crt1 caCrt caKey⟩ : St W Key Cert Bytes) hk2
    have b : issue E caKey caCrt (roleConfig E vr .server) x1 = (.error c, u2) :=
      issue_keyFail E caKey caCrt _ x1 hk2
    simp only [prepareTLSSecrets, provision, a0, b0, a1, b1, c1, hc1, a, b]
    exact serverKeyFail caKey w1 caCrt w2 key1 crt1 c u2 h1 h2
  rcases hs2 : E.NewSignedCertificate (leafConfig E vr .server) key2 caCrt caKey u2
    with ⟨c | crt2, v2⟩
  · have a : newEtcdServerTLSSecret E vr caKey caCrt defaultClusterDomain (⟨x1, caCalls caKey ++ roleCalls E vr .client key1 crt1 caCrt caKey⟩ : St W Key Cert Bytes) =
        (.error ("new TLS secret failed: " ++ c), ⟨v2, caCalls caKey ++ roleCalls E vr .client key1 crt1 caCrt caKey ++ issueCalls E vr .server key2 caCrt caKey⟩) :=
      newRoleTLSSecret_signFail E vr .server caKey caCrt (⟨x1, caCalls caKey ++ roleCalls E vr .client key1 crt1 caCrt caKey⟩ : St W Key Cert Bytes) hk2 hs2
    have b : issue E caKey caCrt (roleConfig E vr .server) x1 = (.error c, v2) :=
      issue_signFail E caKey caCrt _ x1 hk2 (leafConfig_eq_roleConfig E vr .server ▸ hs2)
    simp only [prepareTLSSecrets, provision, a0, b0, a1, b1, c1, hc1, a, b]
    exact serverSignFail caKey w1 caCrt w2 key1 crt1 key2 c v2 h1 h2
  have a2 : newEtcdServerTLSSecret E vr caKey caCrt defaultClusterDomain (⟨x1, caCalls caKey ++ roleCalls E vr .client key1 crt1 caCrt caKey⟩ : St W Key Cert Bytes) =
      (.ok (roleBundle E vr .server key2 crt2 caCrt),
        ⟨v2, caCalls caKey ++ roleCalls E vr .client key1 crt1 caCrt caKey ++ (issueCalls E vr .server key2 caCrt caKey ++
          [.EncodePrivateKeyPEM key2, .EncodeCertificatePEM crt2,
            .EncodeCertificatePEM caCrt])⟩) :=
    newRoleTLSSecret_ok E vr .server caKey caCrt (⟨x1, caCalls caKey ++ roleCalls E vr .client key1 crt1 caCrt caKey⟩ : St W Key Cert Bytes) hk2 hs2
  have b2 : issue E caKey caCrt (roleConfig E vr .server) x1 = (.ok (key2, crt2), v2) :=
    issue_ok E caKey caCrt _ x1 hk2 (leafConfig_eq_roleConfig E vr .server ▸ hs2)
  rcases hc2 : E.Create vr.Namespace (roleBundle E vr .server key2 crt2 caCrt) v2
    with ⟨c | u, x2⟩
  · have a := createSecret_fail E vr.Namespace (roleBundle E vr .server key2 crt2 caCrt)
      (⟨v2, caCalls caKey ++ roleCalls E vr .client key1 crt1 caCrt caKey ++ (issueCalls E vr .server key2 caCrt caKey ++
          [.EncodePrivateKeyPEM key2, .EncodeCertificatePEM crt2,
            .EncodeCertificatePEM caCrt])⟩ : St W Key Cert Bytes) hc2
    simp only [prepareTLSSecrets, provision, a0, b0, a1, b1, c1, hc1, a2, b2, a, hc2]
    exact serverCreateFail caKey w1 caCrt w2 key1 crt1 key2 crt2 c x2 h1 h2
  have c2 : createSecret E vr.Namespace (roleBundle E vr .server key2 crt2 caCrt)
      (⟨v2, caCalls caKey ++ roleCalls E vr .client key1 crt1 caCrt caKey ++ (issueCalls E vr .server key2 caCrt caKey ++
          [.EncodePrivateKeyPEM key2, .EncodeCertificatePEM crt2,
            .EncodeCertificatePEM caCrt])⟩ : St W Key Cert Bytes) =
      (.ok u, ⟨x2, caCalls caKey ++ roleCalls E vr .client key1 crt1 caCrt caKey ++ roleCalls E vr .server key2 crt2 caCrt caKey⟩) :=
    createSecret_ok E vr.Namespace _ _ hc2
  -- peer
  rcases hk3 : E.NewPrivateKey x2 with ⟨c | key3, u3⟩
  · have a : newEtcdPeerTLSSecret E vr caKey caCrt defaultClusterDomain (⟨x2, caCalls caKey ++ roleCalls E vr .client key1 crt1 caCrt caKey ++ roleCalls E vr .server key2 crt2 caCrt caKey⟩ : St W Key Cert Bytes) =
        (.error ("new TLS secret failed: " ++ c), ⟨u3, caCalls caKey ++ roleCalls E vr .client key1 crt1 caCrt caKey ++ roleCalls E vr .server key2 crt2 caCrt caKey ++ keyFailCalls E vr .peer⟩) :=
      newRoleTLSSecret_keyFail E vr .peer caKey caCrt (⟨x2, caCalls caKey ++ roleCalls E vr .client key1 crt1 caCrt caKey ++ roleCalls E vr .server key2 crt2 caCrt caKey⟩ : St W Key Cert Bytes) hk3
    have b : issue E caKey caCrt (roleConfig E vr .peer) x2 = (.error c, u3) :=
      issue_keyFail E caKey caCrt _ x2 hk3
    simp only [prepareTLSSecrets, provision, a0, b0, a1, b1, c1, hc1, a2, b2, c2, hc2, a, b]
    exact peerKeyFail caKey w1 caCrt w2 key1 crt1 key2 crt2 c u3 h1 h2
  rcases hs3 : E.NewSignedCertificate (leafConfig E vr .peer) key3 caCrt caKey u3
    with ⟨c | crt3, v3⟩
  · have a : newEtcdPeerTLSSecret E vr caKey caCrt defaultClusterDomain (⟨x2, caCalls caKey ++ roleCalls E vr .client key1 crt1 caCrt caKey ++ roleCalls E vr .server key2 crt2 caCrt caKey⟩ : St W Key Cert Bytes) =
        (.error ("new TLS secret failed: " ++ c), ⟨v3, caCalls caKey ++ roleCalls E vr .client key1 crt1 caCrt caKey ++ roleCalls E vr .server key2 crt2 caCrt caKey ++ issueCalls E vr .peer key3 caCrt caKey⟩) :=
      newRoleTLSSecret_signFail E vr .peer caKey caCrt (⟨x2, caCalls caKey ++ roleCalls E vr .client key1 crt1 caCrt caKey ++ roleCalls E vr .server key2 crt2 caCrt caKey⟩ : St W Key Cert Bytes) hk3 hs3
    have b : issue E caKey caCrt (roleConfig E vr .peer) x2 = (.error c, v3) :=
      issue_signFail E caKey caCrt _ x2 hk3 (leafConfig_eq_roleConfig E vr .peer ▸ hs3)
    simp only [prepareTLSSecrets, provision, a0, b0, a1, b1, c1, hc1, a2, b2, c2, hc2, a, b]
    exact peerSignFail caKey w1 caCrt w2 key1 crt1 key2 crt2 key3 c v3 h1 h2
  have a3 : newEtcdPeerTLSSecret E vr caKey caCrt defaultClusterDomain (⟨x2, caCalls caKey ++ roleCalls E vr .client key1 crt1 caCrt caKey ++ roleCalls E vr .server key2 crt2 caCrt caKey⟩ : St W Key Cert Bytes) =
      (.ok (roleBundle E vr .peer key3 crt3 caCrt),
        ⟨v3, caCalls caKey ++ roleCalls E vr .client key1 crt1 caCrt caKey ++ roleCalls E vr .server key2 crt2 caCrt caKey ++ (issueCalls E vr .peer key3 caCrt caKey ++
          [.EncodePrivateKeyPEM key3, .EncodeCertificatePEM crt3,
            .EncodeCertificatePEM caCrt])⟩) :=
    newRoleTLSSecret_ok E vr .peer caKey caCrt (⟨x2, caCalls caKey ++ roleCalls E vr .client key1 crt1 caCrt caKey ++ roleCalls E vr .server key2 crt2 caCrt caKey⟩ : St W Key Cert Bytes) hk3 hs3
  have b3 : issue E caKey caCrt (roleConfig E vr .peer) x2 = (.ok (key3, crt3), v3) :=
    issue_ok E caKey caCrt _ x2 hk3 (leafConfig_eq_roleConfig E vr .peer ▸ hs3)
  rcases hc3 : E.Create vr.Namespace (roleBundle E vr .peer key3 crt3 caCrt) v3
    with ⟨c | u, x3⟩
  · have a := createSecret_fail E vr.Namespace (roleBundle E vr .peer key3 crt3 caCrt)
      (⟨v3, caCalls caKey ++ roleCalls E vr .client key1 crt1 caCrt caKey ++ roleCalls E vr .server key2 crt2 caCrt caKey ++ (issueCalls E vr .peer key3 caCrt caKey ++
          [.EncodePrivateKeyPEM key3, .EncodeCertificatePEM crt3,
            .EncodeCertificatePEM caCrt])⟩ : St W Key Cert Bytes) hc3
    simp only [prepareTLSSecrets, provision, a0, b0, a1, b1, c1, hc1, a2, b2, c2, hc2, a3, b3, a, hc3]
    exact peerCreateFail caKey w1 caCrt w2 key1 crt1 key2 crt2 key3 crt3 c x3 h1 h2
  have c3 : createSecret E vr.Namespace (roleBundle E vr .peer key3 crt3 caCrt)
      (⟨v3, caCalls caKey ++ roleCalls E vr .client key1 crt1 caCrt caKey ++ roleCalls E vr .server key2 crt2 caCrt caKey ++ (issueCalls E vr .peer key3 caCrt caKey ++
          [.EncodePrivateKeyPEM key3, .EncodeCertificatePEM crt3,
            .EncodeCertificatePEM caCrt])⟩ : St W Key Cert Bytes) =
      (.ok u, ⟨x3, caCalls caKey ++ roleCalls E vr .client key1 crt1 caCrt caKey ++ roleCalls E vr .server key2 crt2 caCrt caKey ++ roleCalls E vr .peer key3 crt3 caCrt caKey⟩) :=
    createSecret_ok E vr.Namespace _ _ hc3
  simp only [prepareTLSSecrets, provision, a0, b0, a1, b1, c1, hc1, a2, b2, c2, hc2, a3, b3, c3, hc3]
  exact completed caKey w1 caCrt w2 key1 crt1 key2 crt2 key3 crt3 x3 h1 h2


end Steps

/-! ## Strings, maps and what one call of `newTLSSecret` adds to the log -/

section Observations

variable {W Key Cert Bytes : Type}

theorem localhost_ne_wildcard (rest : String) : "localhost" ≠ "*." ++ rest := by
  intro h
  have := congrArg String.data h
  simp [String.data_append] at this

theorem localhost_ne_client (e ns d : String) :
    "localhost" ≠ e ++ "-client." ++ ns ++ ".svc." ++ d := by
  intro h
  have := congrArg String.length h
  simp only [String.length_append, (by decide : "localhost".length = 9),
    (by decide : "-client.".length = 8), (by decide : ".svc.".length = 5)] at this
  omega

theorem wildcard_ne_client (e ns d : String) :
    "*." ++ e ++ "." ++ ns ++ ".svc." ++ d ≠ e ++ "-client." ++ ns ++ ".svc." ++ d := by
  intro h
  have := congrArg String.length h
  simp only [String.length_append, (by decide : "*.".length = 2),
    (by decide : ".".length = 1), (by decide : "-client.".length = 8),
    (by decide : ".svc.".length = 5)] at this
  omega

theorem issuance_context_ne (c : String) : "new TLS secret failed: " ++ c ≠ c := by
  intro h
  have := congrArg String.length h
  simp only [String.length_append,
    (by decide : "new TLS secret failed: ".length = 23)] at this
  omega

theorem string_append_left_cancel (p a b : String) (h : p ++ a = p ++ b) : a = b := by
  have := congrArg String.data h
  simp only [String.data_append, List.append_cancel_left_eq] at this
  exact String.ext this

theorem GoMap.lit_three {V : Type} (k1 k2 k3 : String) (a b c : V)
    (h12 : k1 ≠ k2) (h13 : k1 ≠ k3) (h23 : k2 ≠ k3) :
    GoMap.lit [(k1, a), (k2, b), (k3, c)] = [(k1, a), (k2, b), (k3, c)] := by
  simp [GoMap.lit, GoMap.set, h12, h13, h23]

theorem GoMap.get?_three {V : Type} (k1 k2 k3 : String) (a b c : V)
    (h12 : k1 ≠ k2) (h13 : k1 ≠ k3) (h23 : k2 ≠ k3) :
    GoMap.get? (GoMap.lit [(k1, a), (k2, b), (k3, c)]) k1 = some a ∧
    GoMap.get? (GoMap.lit [(k1, a), (k2, b), (k3, c)]) k2 = some b ∧
    GoMap.get? (GoMap.lit [(k1, a), (k2, b), (k3, c)]) k3 = some c := by
  rw [GoMap.lit_three k1 k2 k3 a b c h12 h13 h23]
  simp [GoMap.get?, h12, h13, h23]

/-- The three outcomes of one call of `newTLSSecret`, by the collaborator call
that fails first. -/
theorem newTLSSecret_cases (E : Env W Key Cert Bytes) (vr : Vault) (caKey : Key) (caCrt : Cert)
    (cn name : String) (addrs : List String) (fm : GoMap String) (s : St W Key Cert Bytes)
    (motive : Except String (Secret Bytes) × St W Key Cert Bytes → Prop)
    (keyFail : ∀ c w1, E.NewPrivateKey s.world = (.error c, w1) →
      motive (.error ("new TLS secret failed: " ++ c),
        ⟨w1, s.log ++ [.NewAltNames addrs, .NewPrivateKey]⟩))
    (signFail : ∀ key w1 c w2, E.NewPrivateKey s.world = (.ok key, w1) →
      E.NewSignedCertificate ⟨cn, orgForTLSCert, NewAltNames addrs⟩ key caCrt caKey w1
        = (.error c, w2) →
      motive (.error ("new TLS secret failed: " ++ c),
        ⟨w2, s.log ++ [.NewAltNames addrs, .NewPrivateKey,
          .NewSignedCertificate ⟨cn, orgForTLSCert, NewAltNames addrs⟩ key caCrt caKey]⟩))
    (issued : ∀ key w1 crt w2, E.NewPrivateKey s.world = (.ok key, w1) →
      E.NewSignedCertificate ⟨cn, orgForTLSCert, NewAltNames addrs⟩ key caCrt caKey w1
        = (.ok crt, w2) →
      motive (.ok ⟨name, E.LabelsForVault vr.Name, GoMap.lit
          [ (fm.index "key", E.EncodePrivateKeyPEM key),
            (fm.index "cert", E.EncodeCertificatePEM crt),
            (fm.index "ca", E.EncodeCertificatePEM caCrt) ]⟩,
        ⟨w2, s.log ++ [.NewAltNames addrs, .NewPrivateKey,
          .NewSignedCertificate ⟨cn, orgForTLSCert, NewAltNames addrs⟩ key caCrt caKey,
          .EncodePrivateKeyPEM key, .EncodeCertificatePEM crt, .EncodeCertificatePEM caCrt]⟩)) :
    motive (newTLSSecret E vr caKey caCrt cn name addrs fm s) := by
  rcases h1 : E.NewPrivateKey s.world with ⟨c | key, w1⟩
  · rw [newTLSSecret_keyFail E vr caKey caCrt cn name addrs fm s h1]
    exact keyFail c w1 h1
  rcases h2 : E.NewSignedCertificate ⟨cn, orgForTLSCert, NewAltNames addrs⟩ key caCrt caKey w1
    with ⟨c | crt, w2⟩
  · rw [newTLSSecret_signFail E vr caKey caCrt cn name addrs fm s h1 h2]
    exact signFail key w1 c w2 h1 h2
  · rw [newTLSSecret_ok E vr caKey caCrt cn name addrs fm s h1 h2]
    exact issued key w1 crt w2 h1 h2

/-- A successful `newTLSSecret` with pairwise distinct field names returns the
bundle of one issuance. -/
theorem newTLSSecret_isIssuedBundle (E : Env W Key Cert Bytes) (vr : Vault) (caKey : Key)
    (caCrt : Cert) (cn name : String) (addrs : List String) (fm : GoMap String)
    (s s' : St W Key Cert Bytes) (se : Secret Bytes)
    (h12 : fm.index "key" ≠ fm.index "cert") (h13 : fm.index "key" ≠ fm.index "ca")
    (h23 : fm.index "cert" ≠ fm.index "ca")
    (hok : newTLSSecret E vr caKey caCrt cn name addrs fm s = (.ok se, s')) :
    IsIssuedBundle E caKey caCrt ⟨cn, ["coreos.com"], NewAltNames addrs⟩ s s' se name
      (E.LabelsForVault vr.Name) (fm.index "key") (fm.index "cert") (fm.index "ca") := by
  revert hok
  refine newTLSSecret_cases E vr caKey caCrt cn name addrs fm s
    (fun r => r = (.ok se, s') → _) ?_ ?_ ?_
  · intro c w1 _ h
    simp at h
  · intro key w1 c w2 _ _ h
    simp at h
  · intro key w1 crt w2 h1 h2 h
    simp only [Prod.mk.injEq, Except.ok.injEq] at h
    obtain ⟨hse, hs⟩ := h
    subst hse hs
    have hget := GoMap.get?_three (fm.index "key") (fm.index "cert") (fm.index "ca")
      (E.EncodePrivateKeyPEM key) (E.EncodeCertificatePEM crt) (E.EncodeCertificatePEM caCrt)
      h12 h13 h23
    refine ⟨key, crt, w1, h1, h2, rfl, rfl, ?_, hget.1, hget.2.1, hget.2.2⟩
    show List.Perm (GoMap.lit _) _
    rw [GoMap.lit_three _ _ _ _ _ _ h12 h13 h23]

/-- When key generation and signing succeed, `newTLSSecret` with pairwise
distinct field names returns the bundle of that key and certificate. -/
theorem newTLSSecret_returnsBundle (E : Env W Key Cert Bytes) (vr : Vault) (caKey : Key)
    (caCrt : Cert) (cn name : String) (addrs : List String) (fm : GoMap String)
    (s : St W Key Cert Bytes) (key : Key) (w1 : W) (crt : Cert) (w2 : W)
    (h12 : fm.index "key" ≠ fm.index "cert") (h13 : fm.index "key" ≠ fm.index "ca")
    (h23 : fm.index "cert" ≠ fm.index "ca")
    (hkey : E.NewPrivateKey s.world = (.ok key, w1))
    (hsign : E.NewSignedCertificate ⟨cn, orgForTLSCert, NewAltNames addrs⟩ key caCrt caKey w1
      = (.ok crt, w2)) :
    ReturnsBundle E (newTLSSecret E vr caKey caCrt cn name addrs fm s) w2 name
      (E.LabelsForVault vr.Name) (fm.index "key") (fm.index "cert") (fm.index "ca")
      key crt caCrt := by
  have hget := GoMap.get?_three (fm.index "key") (fm.index "cert") (fm.index "ca")
    (E.EncodePrivateKeyPEM key) (E.EncodeCertificatePEM crt) (E.EncodeCertificatePEM caCrt)
    h12 h13 h23
  refine ⟨_, _, newTLSSecret_ok E vr caKey caCrt cn name addrs fm s hkey hsign, rfl, rfl, rfl,
    ?_, hget.1, hget.2.1, hget.2.2⟩
  show List.Perm (GoMap.lit _) _
  rw [GoMap.lit_three _ _ _ _ _ _ h12 h13 h23]

theorem serverAltNames_card (e ns d : String) :
    (NewAltNames ["localhost", "*." ++ e ++ "." ++ ns ++ ".svc." ++ d,
      e ++ "-client." ++ ns ++ ".svc." ++ d]).card = 3 := by
  have h : NewAltNames ["localhost", "*." ++ e ++ "." ++ ns ++ ".svc." ++ d,
      e ++ "-client." ++ ns ++ ".svc." ++ d] =
      {"localhost", "*." ++ e ++ "." ++ ns ++ ".svc." ++ d,
        e ++ "-client." ++ ns ++ ".svc." ++ d} := by
    simp [NewAltNames]
  rw [h, Finset.card_insert_of_not_mem, Finset.card_insert_of_not_mem, Finset.card_singleton]
  · simpa using wildcard_ne_client _ _ _
  · simp only [Finset.mem_insert, Finset.mem_singleton, not_or]
    exact ⟨localhost_ne_wildcard _, localhost_ne_client _ _ _⟩

theorem roleBundle_keys (E : Env W Key Cert Bytes) (vr : Vault) (role : Spec.Role) (key : Key)
    (crt caCrt : Cert) :
    (Spec.roleBundle E vr role key crt caCrt).Data.keys =
      [(Spec.roleFields role).key, (Spec.roleFields role).cert, (Spec.roleFields role).ca] := by
  cases role <;> rfl

theorem clientBundle_get?_ca (E : Env W Key Cert Bytes) (vr : Vault) (key : Key)
    (crt caCrt : Cert) :
    (Spec.roleBundle E vr .client key crt caCrt).Data.get? "etcd-client-ca.crt" =
      some (E.EncodeCertificatePEM caCrt) := rfl

theorem serverBundle_get?_ca (E : Env W Key Cert Bytes) (vr : Vault) (key : Key)
    (crt caCrt : Cert) :
    (Spec.roleBundle E vr .server key crt caCrt).Data.get? "server-ca.crt" =
      some (E.EncodeCertificatePEM caCrt) := rfl

theorem peerBundle_get?_ca (E : Env W Key Cert Bytes) (vr : Vault) (key : Key)
    (crt caCrt : Cert) :
    (Spec.roleBundle E vr .peer key crt caCrt).Data.get? "peer-ca.crt" =
      some (E.EncodeCertificatePEM caCrt) := rfl

theorem demoEnv_signer_commonName (failAt : Option Nat) (config : CertConfig) (key : Nat)
    (caCert : DemoCert) (caKey w : Nat) (crt : DemoCert) (w' : Nat)
    (h : (demoEnv failAt).NewSignedCertificate config key caCert caKey w = (.ok crt, w')) :
    crt.commonName = config.CommonName := by
  simp only [demoEnv, scripted, Prod.mk.injEq] at h
  obtain ⟨h, _⟩ := h
  split at h
  · simp at h
  · simp only [Except.ok.injEq] at h
    rw [← h]

/-- The twelve paths with the logs forgotten: the result and the final world
of the code against the terminal state of the specification. -/
theorem prepareTLSSecrets_result (E : Env W Key Cert Bytes) (vr : Vault) (w : W) :
    (prepareTLSSecrets E vr (St.init w)).1 =
      (match (Spec.provision E vr w).1 with
        | .Completed => .ok ()
        | .Failed stage cause =>
          .error ("prepare TLS secrets failed: " ++
            (if stage.isIssuance then "new TLS secret failed: " ++ cause else cause))) ∧
    (prepareTLSSecrets E vr (St.init w)).2.world = (Spec.provision E vr w).2 := by
  refine prepareTLSSecrets_cases E vr w
    (fun r o => r.1 = (match o.1 with
        | .Completed => .ok ()
        | .Failed stage cause =>
          .error ("prepare TLS secrets failed: " ++
            (if stage.isIssuance then "new TLS secret failed: " ++ cause else cause))) ∧
      r.2.world = o.2) ?_ ?_ ?_ ?_ ?_ ?_ ?_ ?_ ?_ ?_ ?_ ?_ <;>
  · intros
    simp [Spec.Stage.isIssuance]

end Observations

/-! ## The claims -/

section Claims

open Spec

variable {W Key Cert Bytes : Type}

/-- C1. For every cluster name, namespace and cluster domain, in every state,
`newEtcdServerTLSSecret` hands `NewAltNames` exactly one address list, the
three entries "localhost", the wildcard member name and the client service
name; the config that reaches the signer (when key generation succeeds)
carries that set, which always has three distinct members. With
`EtcdNameForVault n = n ++ "-etcd"`, for vault1, ns1 and cluster.local the
list and the set are the three names of the specification. -/
theorem newEtcdServerTLSSecret_altNames (E : Env W Key Cert Bytes) (vr : Vault) (caKey : Key)
    (caCrt : Cert) (clusterDomain : String) (s : St W Key Cert Bytes) :
    altNameCalls (newEtcdServerTLSSecret E vr caKey caCrt clusterDomain s).2.log =
      altNameCalls s.log ++
        [[ "localhost",
           "*." ++ E.EtcdNameForVault vr.Name ++ "." ++ vr.Namespace ++ ".svc." ++ clusterDomain,
           E.EtcdNameForVault vr.Name ++ "-client." ++ vr.Namespace ++ ".svc." ++
             clusterDomain ]] ∧
    certConfigs (newEtcdServerTLSSecret E vr caKey caCrt clusterDomain s).2.log =
      certConfigs s.log ++
        (match (E.NewPrivateKey s.world).1 with
          | .ok _ =>
            [{ CommonName := "etcd server", Organization := ["coreos.com"],
               AltNames :=
                { "localhost",
                  "*." ++ E.EtcdNameForVault vr.Name ++ "." ++ vr.Namespace ++ ".svc." ++
                    clusterDomain,
                  E.EtcdNameForVault vr.Name ++ "-client." ++ vr.Namespace ++ ".svc." ++
                    clusterDomain } }]
          | .error _ => []) ∧
    Finset.card
      ({ "localhost",
         "*." ++ E.EtcdNameForVault vr.Name ++ "." ++ vr.Namespace ++ ".svc." ++ clusterDomain,
         E.EtcdNameForVault vr.Name ++ "-client." ++ vr.Namespace ++ ".svc." ++
           clusterDomain } : Finset String) = 3 ∧
    ((∀ n, E.EtcdNameForVault n = n ++ "-etcd") →
      altNameCalls
          (newEtcdServerTLSSecret E ⟨"vault1", "ns1"⟩ caKey caCrt "cluster.local" s).2.log =
        altNameCalls s.log ++
          [[ "localhost", "*.vault1-etcd.ns1.svc.cluster.local",
             "vault1-etcd-client.ns1.svc.cluster.local" ]] ∧
      NewAltNames
          [ "localhost",
            "*." ++ E.EtcdNameForVault "vault1" ++ "." ++ "ns1" ++ ".svc." ++ "cluster.local",
            E.EtcdNameForVault "vault1" ++ "-client." ++ "ns1" ++ ".svc." ++ "cluster.local" ] =
        { "localhost", "*.vault1-etcd.ns1.svc.cluster.local",
          "vault1-etcd-client.ns1.svc.cluster.local" }) := by
  have hlog : ∀ (vr : Vault) (d : String),
      altNameCalls (newEtcdServerTLSSecret E vr caKey caCrt d s).2.log =
        altNameCalls s.log ++
          [[ "localhost",
             "*." ++ E.EtcdNameForVault vr.Name ++ "." ++ vr.Namespace ++ ".svc." ++ d,
             E.EtcdNameForVault vr.Name ++ "-client." ++ vr.Namespace ++ ".svc." ++ d ]] := by
    intro vr d
    unfold newEtcdServerTLSSecret
    refine newTLSSecret_cases E vr caKey caCrt _ _ _ _ s
      (fun r => altNameCalls r.2.log = _) ?_ ?_ ?_ <;>
    · intros
      simp [altNameCalls, List.filterMap_append]
  refine ⟨hlog vr clusterDomain, ?_, ?_, ?_⟩
  · unfold newEtcdServerTLSSecret
    refine newTLSSecret_cases E vr caKey caCrt _ _ _ _ s
      (fun r => certConfigs r.2.log = _) ?_ ?_ ?_ <;>
    · intro _ _
      intros
      simp_all [certConfigs, List.filterMap_append, NewAltNames, orgForTLSCert]
  · rw [Finset.card_insert_of_not_mem, Finset.card_insert_of_not_mem, Finset.card_singleton]
    · simpa using wildcard_ne_client _ _ _
    · simp only [Finset.mem_insert, Finset.mem_singleton, not_or]
      exact ⟨localhost_ne_wildcard _, localhost_ne_client _ _ _⟩
  · intro hname
    refine ⟨?_, ?_⟩
    · rw [hlog, hname]
      have e1 : ("*." ++ ("vault1" ++ "-etcd") ++ "." ++ "ns1" ++ ".svc." ++ "cluster.local" :
          String) = "*.vault1-etcd.ns1.svc.cluster.local" := by decide
      have e2 : ("vault1" ++ "-etcd" ++ "-client." ++ "ns1" ++ ".svc." ++ "cluster.local" :
          String) = "vault1-etcd-client.ns1.svc.cluster.local" := by decide
      simp only [e1, e2]
    · rw [hname]
      decide

/-- Witness of C1: the scripted environment names the etcd cluster of a vault
`n ++ "-etcd"`. -/
theorem newEtcdServerTLSSecret_altNames_witness :
    (∀ n, (demoEnv none).EtcdNameForVault n = n ++ "-etcd") ∧
    altNameCalls
        (newEtcdServerTLSSecret (demoEnv none) ⟨"vault1", "ns1"⟩ 0 demoCACert "cluster.local"
          (St.init 5)).2.log =
      [[ "localhost", "*.vault1-etcd.ns1.svc.cluster.local",
         "vault1-etcd-client.ns1.svc.cluster.local" ]] ∧
    NewAltNames
        [ "localhost",
          "*." ++ (demoEnv none).EtcdNameForVault "vault1" ++ "." ++ "ns1" ++ ".svc." ++
            "cluster.local",
          (demoEnv none).EtcdNameForVault "vault1" ++ "-client." ++ "ns1" ++ ".svc." ++
            "cluster.local" ] =
      { "localhost", "*.vault1-etcd.ns1.svc.cluster.local",
        "vault1-etcd-client.ns1.svc.cluster.local" } :=
  ⟨fun _ => rfl,
    (newEtcdServerTLSSecret_altNames (demoEnv none) demoVault 0 demoCACert "cluster.local"
      (St.init 5)).2.2.2 (fun _ => rfl)⟩

/-- C2. For every cluster name, namespace and cluster domain, in every state,
`newEtcdPeerTLSSecret` hands `NewAltNames` exactly one address list with exactly
one entry, the wildcard member name, the very string that is the second entry
of the list `newEtcdServerTLSSecret` hands over for the same inputs; the config
that reaches the signer carries that singleton set. With
`EtcdNameForVault n = n ++ "-etcd"`, for vault1, ns1 and cluster.local it is
"*.vault1-etcd.ns1.svc.cluster.local". -/
theorem newEtcdPeerTLSSecret_altNames (E : Env W Key Cert Bytes) (vr : Vault) (caKey : Key)
    (caCrt : Cert) (clusterDomain : String) (s : St W Key Cert Bytes) :
    altNameCalls (newEtcdPeerTLSSecret E vr caKey caCrt clusterDomain s).2.log =
      altNameCalls s.log ++
        [[ "*." ++ E.EtcdNameForVault vr.Name ++ "." ++ vr.Namespace ++ ".svc." ++
            clusterDomain ]] ∧
    (∃ wildcard rest,
      altNameCalls (newEtcdPeerTLSSecret E vr caKey caCrt clusterDomain s).2.log =
        altNameCalls s.log ++ [[wildcard]] ∧
      altNameCalls (newEtcdServerTLSSecret E vr caKey caCrt clusterDomain s).2.log =
        altNameCalls s.log ++ [[ "localhost", wildcard, rest ]]) ∧
    certConfigs (newEtcdPeerTLSSecret E vr caKey caCrt clusterDomain s).2.log =
      certConfigs s.log ++
        (match (E.NewPrivateKey s.world).1 with
          | .ok _ =>
            [{ CommonName := "etcd peer", Organization := ["coreos.com"],
               AltNames :=
                { "*." ++ E.EtcdNameForVault vr.Name ++ "." ++ vr.Namespace ++ ".svc." ++
                    clusterDomain } }]
          | .error _ => []) ∧
    ((∀ n, E.EtcdNameForVault n = n ++ "-etcd") →
      altNameCalls
          (newEtcdPeerTLSSecret E ⟨"vault1", "ns1"⟩ caKey caCrt "cluster.local" s).2.log =
        altNameCalls s.log ++ [[ "*.vault1-etcd.ns1.svc.cluster.local" ]] ∧
      NewAltNames
          [ "*." ++ E.EtcdNameForVault "vault1" ++ "." ++ "ns1" ++ ".svc." ++ "cluster.local" ] =
        { "*.vault1-etcd.ns1.svc.cluster.local" }) := by
  have hlog : ∀ (vr : Vault) (d : String),
      altNameCalls (newEtcdPeerTLSSecret E vr caKey caCrt d s).2.log =
        altNameCalls s.log ++
          [[ "*." ++ E.EtcdNameForVault vr.Name ++ "." ++ vr.Namespace ++ ".svc." ++ d ]] := by
    intro vr d
    unfold newEtcdPeerTLSSecret
    refine newTLSSecret_cases E vr caKey caCrt _ _ _ _ s
      (fun r => altNameCalls r.2.log = _) ?_ ?_ ?_ <;>
    · intros
      simp [altNameCalls, List.filterMap_append]
  have hserver :
      altNameCalls (newEtcdServerTLSSecret E vr caKey caCrt clusterDomain s).2.log =
        altNameCalls s.log ++
          [[ "localhost",
             "*." ++ E.EtcdNameForVault vr.Name ++ "." ++ vr.Namespace ++ ".svc." ++
               clusterDomain,
             E.EtcdNameForVault vr.Name ++ "-client." ++ vr.Namespace ++ ".svc." ++
               clusterDomain ]] := by
    unfold newEtcdServerTLSSecret
    refine newTLSSecret_cases E vr caKey caCrt _ _ _ _ s
      (fun r => altNameCalls r.2.log = _) ?_ ?_ ?_ <;>
    · intros
      simp [altNameCalls, List.filterMap_append]
  refine ⟨hlog vr clusterDomain, ⟨_, _, hlog vr clusterDomain, hserver⟩, ?_, ?_⟩
  · unfold newEtcdPeerTLSSecret
    refine newTLSSecret_cases E vr caKey caCrt _ _ _ _ s
      (fun r => certConfigs r.2.log = _) ?_ ?_ ?_ <;>
    · intro _ _
      intros
      simp_all [certConfigs, List.filterMap_append, NewAltNames, orgForTLSCert]
  · intro hname
    have e1 : ("*." ++ ("vault1" ++ "-etcd") ++ "." ++ "ns1" ++ ".svc." ++ "cluster.local" :
        String) = "*.vault1-etcd.ns1.svc.cluster.local" := by decide
    refine ⟨?_, ?_⟩
    · rw [hlog, hname]
      simp only [e1]
    · rw [hname, e1]
      decide

/-- Witness of C2: the scripted environment names the etcd cluster of a vault
`n ++ "-etcd"`. -/
theorem newEtcdPeerTLSSecret_altNames_witness :
    (∀ n, (demoEnv none).EtcdNameForVault n = n ++ "-etcd") ∧
    altNameCalls
        (newEtcdPeerTLSSecret (demoEnv none) ⟨"vault1", "ns1"⟩ 0 demoCACert "cluster.local"
          (St.init 8)).2.log =
      [[ "*.vault1-etcd.ns1.svc.cluster.local" ]] ∧
    NewAltNames
        [ "*." ++ (demoEnv none).EtcdNameForVault "vault1" ++ "." ++ "ns1" ++ ".svc." ++
            "cluster.local" ] =
      { "*.vault1-etcd.ns1.svc.cluster.local" } :=
  ⟨fun _ => rfl,
    (newEtcdPeerTLSSecret_altNames (demoEnv none) demoVault 0 demoCACert "cluster.local"
      (St.init 8)).2.2.2 (fun _ => rfl)⟩

/-- C4. For each role, when issuance succeeds (key generation returns a key
and the signer returns a certificate for the role's config, that key, the CA
certificate and the CA key), the constructor returns a secret: it has the
role's name from the naming helper, the labels `LabelsForVault(vr.Name)` and
exactly the three fields of the output table, holding the PEM encodings of the
freshly generated key, of the certificate the signer returned for that key,
and of the CA certificate that was passed in. More generally `newTLSSecret`
does so for every fieldMap whose values under "key", "cert" and "ca" are
pairwise distinct. Conversely every secret a constructor returns is the
bundle of such an issuance. -/
theorem newTLSSecret_fields (E : Env W Key Cert Bytes) (vr : Vault) (caKey : Key)
    (caCrt : Cert) (s : St W Key Cert Bytes) (key : Key) (w1 : W)
    (hkey : E.NewPrivateKey s.world = (.ok key, w1)) :
    (∀ commonName secretName addrs (fieldMap : GoMap String) crt w2,
      fieldMap.index "key" ≠ fieldMap.index "cert" →
      fieldMap.index "key" ≠ fieldMap.index "ca" →
      fieldMap.index "cert" ≠ fieldMap.index "ca" →
      E.NewSignedCertificate ⟨commonName, ["coreos.com"], NewAltNames addrs⟩ key caCrt caKey w1
        = (.ok crt, w2) →
      ReturnsBundle E
        (newTLSSecret E vr caKey caCrt commonName secretName addrs fieldMap s) w2
        secretName (E.LabelsForVault vr.Name)
        (fieldMap.index "key") (fieldMap.index "cert") (fieldMap.index "ca") key crt caCrt) ∧
    (∀ crt w2,
      E.NewSignedCertificate ⟨"etcd client", ["coreos.com"], ∅⟩ key caCrt caKey w1
        = (.ok crt, w2) →
      ReturnsBundle E (newEtcdClientTLSSecret E vr caKey caCrt s) w2
        (E.EtcdClientTLSSecretName vr.Name) (E.LabelsForVault vr.Name)
        "etcd-client.key" "etcd-client.crt" "etcd-client-ca.crt" key crt caCrt) ∧
    (∀ clusterDomain crt w2,
      E.NewSignedCertificate
        ⟨"etcd server", ["coreos.com"],
          { "localhost",
            "*." ++ E.EtcdNameForVault vr.Name ++ "." ++ vr.Namespace ++ ".svc." ++
              clusterDomain,
            E.EtcdNameForVault vr.Name ++ "-client." ++ vr.Namespace ++ ".svc." ++
              clusterDomain }⟩ key caCrt caKey w1
        = (.ok crt, w2) →
      ReturnsBundle E (newEtcdServerTLSSecret E vr caKey caCrt clusterDomain s) w2
        (E.EtcdServerTLSSecretName vr.Name) (E.LabelsForVault vr.Name)
        "server.key" "server.crt" "server-ca.crt" key crt caCrt) ∧
    (∀ clusterDomain crt w2,
      E.NewSignedCertificate
        ⟨"etcd peer", ["coreos.com"],
          { "*." ++ E.EtcdNameForVault vr.Name ++ "." ++ vr.Namespace ++ ".svc." ++
              clusterDomain }⟩ key caCrt caKey w1
        = (.ok crt, w2) →
      ReturnsBundle E (newEtcdPeerTLSSecret E vr caKey caCrt clusterDomain s) w2
        (E.EtcdPeerTLSSecretName vr.Name) (E.LabelsForVault vr.Name)
        "peer.key" "peer.crt" "peer-ca.crt" key crt caCrt) ∧
    (∀ se s',
      (∀ commonName secretName addrs (fieldMap : GoMap String),
        fieldMap.index "key" ≠ fieldMap.index "cert" →
        fieldMap.index "key" ≠ fieldMap.index "ca" →
        fieldMap.index "cert" ≠ fieldMap.index "ca" →
        newTLSSecret E vr caKey caCrt commonName secretName addrs fieldMap s = (.ok se, s') →
        IsIssuedBundle E caKey caCrt ⟨commonName, ["coreos.com"], NewAltNames addrs⟩ s s' se
          secretName (E.LabelsForVault vr.Name)
          (fieldMap.index "key") (fieldMap.index "cert") (fieldMap.index "ca")) ∧
      (newEtcdClientTLSSecret E vr caKey caCrt s = (.ok se, s') →
        IsIssuedBundle E caKey caCrt ⟨"etcd client", ["coreos.com"], ∅⟩ s s' se
          (E.EtcdClientTLSSecretName vr.Name) (E.LabelsForVault vr.Name)
          "etcd-client.key" "etcd-client.crt" "etcd-client-ca.crt") ∧
      (∀ clusterDomain,
        newEtcdServerTLSSecret E vr caKey caCrt clusterDomain s = (.ok se, s') →
        IsIssuedBundle E caKey caCrt
          ⟨"etcd server", ["coreos.com"],
            { "localhost",
              "*." ++ E.EtcdNameForVault vr.Name ++ "." ++ vr.Namespace ++ ".svc." ++
                clusterDomain,
              E.EtcdNameForVault vr.Name ++ "-client." ++ vr.Namespace ++ ".svc." ++
                clusterDomain }⟩ s s' se
          (E.EtcdServerTLSSecretName vr.Name) (E.LabelsForVault vr.Name)
          "server.key" "server.crt" "server-ca.crt") ∧
      (∀ clusterDomain,
        newEtcdPeerTLSSecret E vr caKey caCrt clusterDomain s = (.ok se, s') →
        IsIssuedBundle E caKey caCrt
          ⟨"etcd peer", ["coreos.com"],
            { "*." ++ E.EtcdNameForVault vr.Name ++ "." ++ vr.Namespace ++ ".svc." ++
                clusterDomain }⟩ s s' se
          (E.EtcdPeerTLSSecretName vr.Name) (E.LabelsForVault vr.Name)
          "peer.key" "peer.crt" "peer-ca.crt")) := by
  refine ⟨?_, ?_, ?_, ?_, ?_⟩
  · intro cn name addrs fm crt w2 h12 h13 h23 hsign
    exact newTLSSecret_returnsBundle E vr caKey caCrt cn name addrs fm s key w1 crt w2
      h12 h13 h23 hkey hsign
  · intro crt w2 hsign
    exact newTLSSecret_returnsBundle E vr caKey caCrt _ _ _ _ s key w1 crt w2
      (by decide) (by decide) (by decide) hkey (by simpa [NewAltNames, orgForTLSCert] using hsign)
  · intro d crt w2 hsign
    exact newTLSSecret_returnsBundle E vr caKey caCrt _ _ _ _ s key w1 crt w2
      (by decide) (by decide) (by decide) hkey (by simpa [NewAltNames, orgForTLSCert] using hsign)
  · intro d crt w2 hsign
    exact newTLSSecret_returnsBundle E vr caKey caCrt _ _ _ _ s key w1 crt w2
      (by decide) (by decide) (by decide) hkey (by simpa [NewAltNames, orgForTLSCert] using hsign)
  · intro se s'
    refine ⟨?_, ?_, ?_, ?_⟩
    · intro cn name addrs fm h12 h13 h23 hok
      exact newTLSSecret_isIssuedBundle E vr caKey caCrt cn name addrs fm s s' se h12 h13 h23 hok
    · intro hok
      have h := newTLSSecret_isIssuedBundle E vr caKey caCrt _ _ _ _ s s' se
        (by decide) (by decide) (by decide) hok
      simpa [NewAltNames] using h
    · intro d hok
      have h := newTLSSecret_isIssuedBundle E vr caKey caCrt _ _ _ _ s s' se
        (by decide) (by decide) (by decide) hok
      simpa [NewAltNames] using h
    · intro d hok
      have h := newTLSSecret_isIssuedBundle E vr caKey caCrt _ _ _ _ s s' se
        (by decide) (by decide) (by decide) hok
      simpa [NewAltNames] using h

/-- Witness of C4: in the scripted environment, in the world 2 and under the
CA key 0, key generation returns the key 2 and the signer then returns a
certificate for each role; each constructor returns its bundle. -/
theorem newTLSSecret_fields_witness :
    (demoEnv none).NewPrivateKey (St.init 2 : St Nat Nat DemoCert DemoPem).world = (.ok 2, 3) ∧
    ReturnsBundle (demoEnv none)
      (newEtcdClientTLSSecret (demoEnv none) demoVault 0 demoCACert (St.init 2)) 4
      "vault1-etcd-client-tls" [("app", "vault"), ("vault_cluster", "vault1")]
      "etcd-client.key" "etcd-client.crt" "etcd-client-ca.crt"
      2 ⟨"etcd client", 2, 0⟩ demoCACert ∧
    ReturnsBundle (demoEnv none)
      (newEtcdServerTLSSecret (demoEnv none) demoVault 0 demoCACert "cluster.local" (St.init 2)) 4
      "vault1-etcd-server-tls" [("app", "vault"), ("vault_cluster", "vault1")]
      "server.key" "server.crt" "server-ca.crt"
      2 ⟨"etcd server", 2, 0⟩ demoCACert ∧
    ReturnsBundle (demoEnv none)
      (newEtcdPeerTLSSecret (demoEnv none) demoVault 0 demoCACert "cluster.local" (St.init 2)) 4
      "vault1-etcd-peer-tls" [("app", "vault"), ("vault_cluster", "vault1")]
      "peer.key" "peer.crt" "peer-ca.crt"
      2 ⟨"etcd peer", 2, 0⟩ demoCACert :=
  ⟨rfl,
    (newTLSSecret_fields (demoEnv none) demoVault 0 demoCACert (St.init 2) 2 3 rfl).2.1
      ⟨"etcd client", 2, 0⟩ 4 rfl,
    (newTLSSecret_fields (demoEnv none) demoVault 0 demoCACert (St.init 2) 2 3 rfl).2.2.1
      "cluster.local" ⟨"etcd server", 2, 0⟩ 4 rfl,
    (newTLSSecret_fields (demoEnv none) demoVault 0 demoCACert (St.init 2) 2 3 rfl).2.2.2.1
      "cluster.local" ⟨"etcd peer", 2, 0⟩ 4 rfl⟩

/-- C8. `prepareTLSSecrets` returns nil exactly when the run completes (CA
creation, the three issuances and the three create calls all succeed);
otherwise it returns one error whose message is "prepare TLS secrets failed: "
followed by the contribution of the first failing stage: the cause unchanged
for CA creation and for a persistence failure, "new TLS secret failed: "
followed by the cause for an issuance failure. The context is applied once. -/
theorem prepareTLSSecrets_error_wrapping (E : Env W Key Cert Bytes) (vr : Vault) (w : W) :
    (prepareTLSSecrets E vr (St.init w)).1 =
      (match (provision E vr w).1 with
        | .Completed => .ok ()
        | .Failed .CreateCA cause => .error ("prepare TLS secrets failed: " ++ cause)
        | .Failed .IssueClient cause =>
          .error ("prepare TLS secrets failed: " ++ ("new TLS secret failed: " ++ cause))
        | .Failed .PersistClient cause => .error ("prepare TLS secrets failed: " ++ cause)
        | .Failed .IssueServer cause =>
          .error ("prepare TLS secrets failed: " ++ ("new TLS secret failed: " ++ cause))
        | .Failed .PersistServer cause => .error ("prepare TLS secrets failed: " ++ cause)
        | .Failed .IssuePeer cause =>
          .error ("prepare TLS secrets failed: " ++ ("new TLS secret failed: " ++ cause))
        | .Failed .PersistPeer cause => .error ("prepare TLS secrets failed: " ++ cause)) ∧
    ((prepareTLSSecrets E vr (St.init w)).1 = .ok () ↔ (provision E vr w).1 = .Completed) := by
  have h := (prepareTLSSecrets_result E vr w).1
  rw [h]
  rcases (provision E vr w).1 with _ | ⟨stage, cause⟩
  · simp
  · cases stage <;> simp [Stage.isIssuance]

/-- C9, the claim as stated fails. Two runs of the scripted environment fail
with the same cause "boom" at different stages, CA creation (call 0) and
client persistence (call 4), and return the same error; so do two runs that
fail at client issuance (call 2) and at server issuance (call 5). -/
theorem prepareTLSSecrets_stage_not_recoverable :
    (provision (demoEnv (some 0)) demoVault 0).1 = .Failed .CreateCA "boom" ∧
    (provision (demoEnv (some 4)) demoVault 0).1 = .Failed .PersistClient "boom" ∧
    (prepareTLSSecrets (demoEnv (some 0)) demoVault (St.init 0)).1 =
      .error "prepare TLS secrets failed: boom" ∧
    (prepareTLSSecrets (demoEnv (some 4)) demoVault (St.init 0)).1 =
      .error "prepare TLS secrets failed: boom" ∧
    (provision (demoEnv (some 2)) demoVault 0).1 = .Failed .IssueClient "boom" ∧
    (provision (demoEnv (some 5)) demoVault 0).1 = .Failed .IssueServer "boom" ∧
    (prepareTLSSecrets (demoEnv (some 2)) demoVault (St.init 0)).1 =
      .error "prepare TLS secrets failed: new TLS secret failed: boom" ∧
    (prepareTLSSecrets (demoEnv (some 5)) demoVault (St.init 0)).1 =
      .error "prepare TLS secrets failed: new TLS secret failed: boom" :=
  ⟨rfl, rfl, rfl, rfl, rfl, rfl, rfl, rfl⟩

/-- C9 as amended. A failing run returns "prepare TLS secrets failed: "
followed by the cause, with "new TLS secret failed: " in between exactly when
the failing stage is an issuance stage. So for two runs that fail with the
same cause message the returned errors differ exactly when one failed at an
issuance stage and the other at CA creation or at a persistence stage; the
error tells these two classes apart and carries the cause, not the stage. -/
theorem prepareTLSSecrets_error_class {W2 Key2 Cert2 Bytes2 : Type}
    (E1 : Env W Key Cert Bytes) (E2 : Env W2 Key2 Cert2 Bytes2) (vr1 vr2 : Vault)
    (w1 : W) (w2 : W2) (stage1 stage2 : Stage) (cause : String)
    (h1 : (provision E1 vr1 w1).1 = .Failed stage1 cause)
    (h2 : (provision E2 vr2 w2).1 = .Failed stage2 cause) :
    (prepareTLSSecrets E1 vr1 (St.init w1)).1 =
      .error ("prepare TLS secrets failed: " ++
        (if stage1.isIssuance then "new TLS secret failed: " ++ cause else cause)) ∧
    ((prepareTLSSecrets E1 vr1 (St.init w1)).1 = (prepareTLSSecrets E2 vr2 (St.init w2)).1 ↔
      stage1.isIssuance = stage2.isIssuance) := by
  have r1 := (prepareTLSSecrets_result E1 vr1 w1).1
  have r2 := (prepareTLSSecrets_result E2 vr2 w2).1
  rw [h1] at r1
  rw [h2] at r2
  refine ⟨r1, ?_⟩
  rw [r1, r2]
  cases hs1 : stage1.isIssuance <;> cases hs2 : stage2.isIssuance <;>
    simp only [hs1, hs2, Except.error.injEq, Bool.false_eq_true, if_false, if_true, iff_true,
      iff_false, reduceCtorEq]
  · intro h
    exact issuance_context_ne cause (string_append_left_cancel _ _ _ h).symm
  · intro h
    exact issuance_context_ne cause (string_append_left_cancel _ _ _ h)

/-- Witness of C9 as amended: CA creation against client persistence, both
failing with "boom". -/
theorem prepareTLSSecrets_error_class_witness :
    ((provision (demoEnv (some 0)) demoVault 0).1 = .Failed .CreateCA "boom" ∧
      (provision (demoEnv (some 4)) demoVault 0).1 = .Failed .PersistClient "boom") ∧
    ((prepareTLSSecrets (demoEnv (some 0)) demoVault (St.init 0)).1 =
      .error ("prepare TLS secrets failed: " ++
        (if Stage.CreateCA.isIssuance then "new TLS secret failed: " ++ "boom" else "boom")) ∧
    ((prepareTLSSecrets (demoEnv (some 0)) demoVault (St.init 0)).1 =
        (prepareTLSSecrets (demoEnv (some 4)) demoVault (St.init 0)).1 ↔
      Stage.CreateCA.isIssuance = Stage.PersistClient.isIssuance)) :=
  ⟨⟨rfl, rfl⟩,
    prepareTLSSecrets_error_class (demoEnv (some 0)) (demoEnv (some 4)) demoVault demoVault 0 0
      .CreateCA .PersistClient "boom" rfl rfl⟩

/-- C5. For every role, when issuance succeeds the constructor returns a
secret whose certificate field ("etcd-client.crt", "server.crt", "peer.crt")
holds the PEM encoding of the certificate the signer returned for the role's
config, whose CommonName is "etcd client", "etcd server", "etcd peer". Hence,
when the signer copies the config's CommonName into the certificate and PEM
decoding undoes PEM encoding, decoding that field gives a certificate with
that CommonName, never "vault operator CA". Conversely the certificate field
of every secret a constructor returns comes from such a signer call. -/
theorem certField_commonName (E : Env W Key Cert Bytes)
    (decodeCertificatePEM : Bytes → Option Cert) (commonNameOf : Cert → String)
    (hdecode : ∀ c, decodeCertificatePEM (E.EncodeCertificatePEM c) = some c)
    (hsigner : ∀ config key caCert caKey w crt w',
      E.NewSignedCertificate config key caCert caKey w = (.ok crt, w') →
      commonNameOf crt = config.CommonName)
    (vr : Vault) (caKey : Key) (caCrt : Cert) (s : St W Key Cert Bytes) (key : Key) (w1 : W)
    (hkey : E.NewPrivateKey s.world = (.ok key, w1)) :
    (∀ crt w2,
      E.NewSignedCertificate ⟨"etcd client", ["coreos.com"], ∅⟩ key caCrt caKey w1
        = (.ok crt, w2) →
      ReturnsCertField E decodeCertificatePEM commonNameOf
        (newEtcdClientTLSSecret E vr caKey caCrt s) "etcd-client.crt" "etcd client" crt) ∧
    (∀ clusterDomain crt w2,
      E.NewSignedCertificate
        ⟨"etcd server", ["coreos.com"],
          { "localhost",
            "*." ++ E.EtcdNameForVault vr.Name ++ "." ++ vr.Namespace ++ ".svc." ++
              clusterDomain,
            E.EtcdNameForVault vr.Name ++ "-client." ++ vr.Namespace ++ ".svc." ++
              clusterDomain }⟩ key caCrt caKey w1
        = (.ok crt, w2) →
      ReturnsCertField E decodeCertificatePEM commonNameOf
        (newEtcdServerTLSSecret E vr caKey caCrt clusterDomain s)
        "server.crt" "etcd server" crt) ∧
    (∀ clusterDomain crt w2,
      E.NewSignedCertificate
        ⟨"etcd peer", ["coreos.com"],
          { "*." ++ E.EtcdNameForVault vr.Name ++ "." ++ vr.Namespace ++ ".svc." ++
              clusterDomain }⟩ key caCrt caKey w1
        = (.ok crt, w2) →
      ReturnsCertField E decodeCertificatePEM commonNameOf
        (newEtcdPeerTLSSecret E vr caKey caCrt clusterDomain s) "peer.crt" "etcd peer" crt) ∧
    (∀ se s',
      (newEtcdClientTLSSecret E vr caKey caCrt s = (.ok se, s') →
        CertFieldIssuedAs E decodeCertificatePEM commonNameOf caKey caCrt s' se
          "etcd-client.crt" "etcd client") ∧
      (∀ clusterDomain,
        newEtcdServerTLSSecret E vr caKey caCrt clusterDomain s = (.ok se, s') →
        CertFieldIssuedAs E decodeCertificatePEM commonNameOf caKey caCrt s' se
          "server.crt" "etcd server") ∧
      (∀ clusterDomain,
        newEtcdPeerTLSSecret E vr caKey caCrt clusterDomain s = (.ok se, s') →
        CertFieldIssuedAs E decodeCertificatePEM commonNameOf caKey caCrt s' se
          "peer.crt" "etcd peer")) := by
  have fwd : ∀ (cn name : String) (addrs : List String) (fm : GoMap String) (crt : Cert)
      (w2 : W),
      fm.index "key" ≠ fm.index "cert" → fm.index "key" ≠ fm.index "ca" →
      fm.index "cert" ≠ fm.index "ca" → cn ≠ "vault operator CA" →
      E.NewSignedCertificate ⟨cn, orgForTLSCert, NewAltNames addrs⟩ key caCrt caKey w1
        = (.ok crt, w2) →
      ReturnsCertField E decodeCertificatePEM commonNameOf
        (newTLSSecret E vr caKey caCrt cn name addrs fm s) (fm.index "cert") cn crt := by
    intro cn name addrs fm crt w2 h12 h13 h23 hcn hsign
    obtain ⟨se, s', hr, _, _, _, _, _, hcert, _⟩ :=
      newTLSSecret_returnsBundle E vr caKey caCrt cn name addrs fm s key w1 crt w2
        h12 h13 h23 hkey hsign
    have hname : commonNameOf crt = cn := hsigner _ _ _ _ _ _ _ hsign
    refine ⟨se, s', hr, hcert, ?_, ?_⟩
    · simp [hcert, hdecode, hname]
    · simp [hcert, hdecode, hname, hcn]
  have bwd : ∀ (se : Secret Bytes) (s' : St W Key Cert Bytes) (cn name : String)
      (addrs : List String) (fm : GoMap String),
      fm.index "key" ≠ fm.index "cert" → fm.index "key" ≠ fm.index "ca" →
      fm.index "cert" ≠ fm.index "ca" → cn ≠ "vault operator CA" →
      newTLSSecret E vr caKey caCrt cn name addrs fm s = (.ok se, s') →
      CertFieldIssuedAs E decodeCertificatePEM commonNameOf caKey caCrt s' se
        (fm.index "cert") cn := by
    intro se s' cn name addrs fm h12 h13 h23 hcn hok
    obtain ⟨k, crt, w1', _, hsign, _, _, _, _, hcert, _⟩ :=
      newTLSSecret_isIssuedBundle E vr caKey caCrt cn name addrs fm s s' se h12 h13 h23 hok
    have hname : commonNameOf crt = cn := hsigner _ _ _ _ _ _ _ hsign
    refine ⟨_, k, w1', crt, rfl, hsign, hcert, ?_, ?_⟩
    · simp [hcert, hdecode, hname]
    · simp [hcert, hdecode, hname, hcn]
  refine ⟨?_, ?_, ?_, ?_⟩
  · intro crt w2 hsign
    exact fwd _ _ _ _ crt w2 (by decide) (by decide) (by decide) (by decide)
      (by simpa [NewAltNames, orgForTLSCert] using hsign)
  · intro d crt w2 hsign
    exact fwd _ _ _ _ crt w2 (by decide) (by decide) (by decide) (by decide)
      (by simpa [NewAltNames, orgForTLSCert] using hsign)
  · intro d crt w2 hsign
    exact fwd _ _ _ _ crt w2 (by decide) (by decide) (by decide) (by decide)
      (by simpa [NewAltNames, orgForTLSCert] using hsign)
  · intro se s'
    refine ⟨?_, ?_, ?_⟩
    · intro hok
      exact bwd se s' _ _ _ _ (by decide) (by decide) (by decide) (by decide) hok
    · intro d hok
      exact bwd se s' _ _ _ _ (by decide) (by decide) (by decide) (by decide) hok
    · intro d hok
      exact bwd se s' _ _ _ _ (by decide) (by decide) (by decide) (by decide) hok

/-- Witness of C5: in the scripted environment the signer copies the
CommonName and the decoder undoes the encoder; in the world 2, under the CA
key 0, each constructor returns a bundle whose certificate field decodes to a
certificate with the role's CommonName. -/
theorem certField_commonName_witness :
    (∀ c, demoDecodeCertificatePEM ((demoEnv none).EncodeCertificatePEM c) = some c) ∧
    (demoEnv none).NewPrivateKey (St.init 2 : St Nat Nat DemoCert DemoPem).world = (.ok 2, 3) ∧
    ReturnsCertField (demoEnv none) demoDecodeCertificatePEM DemoCert.commonName
      (newEtcdClientTLSSecret (demoEnv none) demoVault 0 demoCACert (St.init 2))
      "etcd-client.crt" "etcd client" ⟨"etcd client", 2, 0⟩ ∧
    ReturnsCertField (demoEnv none) demoDecodeCertificatePEM DemoCert.commonName
      (newEtcdServerTLSSecret (demoEnv none) demoVault 0 demoCACert "cluster.local" (St.init 2))
      "server.crt" "etcd server" ⟨"etcd server", 2, 0⟩ ∧
    ReturnsCertField (demoEnv none) demoDecodeCertificatePEM DemoCert.commonName
      (newEtcdPeerTLSSecret (demoEnv none) demoVault 0 demoCACert "cluster.local" (St.init 2))
      "peer.crt" "etcd peer" ⟨"etcd peer", 2, 0⟩ :=
  ⟨fun _ => rfl, rfl,
    (certField_commonName (demoEnv none) demoDecodeCertificatePEM DemoCert.commonName
      (fun _ => rfl) (demoEnv_signer_commonName none) demoVault 0 demoCACert (St.init 2) 2 3
      rfl).1 ⟨"etcd client", 2, 0⟩ 4 rfl,
    (certField_commonName (demoEnv none) demoDecodeCertificatePEM DemoCert.commonName
      (fun _ => rfl) (demoEnv_signer_commonName none) demoVault 0 demoCACert (St.init 2) 2 3
      rfl).2.1 "cluster.local" ⟨"etcd server", 2, 0⟩ 4 rfl,
    (certField_commonName (demoEnv none) demoDecodeCertificatePEM DemoCert.commonName
      (fun _ => rfl) (demoEnv_signer_commonName none) demoVault 0 demoCACert (St.init 2) 2 3
      rfl).2.2.1 "cluster.local" ⟨"etcd peer", 2, 0⟩ 4 rfl⟩

/-- C10. In every call of `newTLSSecret` the private-key PEM encoder is called
only when the secret is assembled, exactly once, on the key `NewPrivateKey`
returned inside `newKeyAndCert`; the secret data is the map literal over that
key, the signer's certificate and the CA certificate, and the CA key goes to
the signer only. As two runs: if the signer returns the same for the CA keys
`caKey` and `caKey'`, the two calls return the same secret (or error) and leave
the same world. In a whole run of `prepareTLSSecrets` the keys handed to the
private-key encoder are the leaf keys handed to the signer, in order. -/
theorem newTLSSecret_caKey_not_leaked (E : Env W Key Cert Bytes) (vr : Vault)
    (caKey caKey' : Key) (caCrt : Cert) (commonName secretName : String)
    (addrs : List String) (fieldMap : GoMap String) (s : St W Key Cert Bytes) :
    (∀ se s',
      newTLSSecret E vr caKey caCrt commonName secretName addrs fieldMap s = (.ok se, s') →
      ∃ key crt w1,
        E.NewPrivateKey s.world = (.ok key, w1) ∧
        E.NewSignedCertificate ⟨commonName, ["coreos.com"], NewAltNames addrs⟩ key caCrt caKey w1
          = (.ok crt, s'.world) ∧
        se.Data = GoMap.lit
          [ (fieldMap.index "key", E.EncodePrivateKeyPEM key),
            (fieldMap.index "cert", E.EncodeCertificatePEM crt),
            (fieldMap.index "ca", E.EncodeCertificatePEM caCrt) ] ∧
        encodedPrivateKeys s'.log = encodedPrivateKeys s.log ++ [key]) ∧
    (∀ err s',
      newTLSSecret E vr caKey caCrt commonName secretName addrs fieldMap s = (.error err, s') →
      encodedPrivateKeys s'.log = encodedPrivateKeys s.log) ∧
    ((∀ key w1, E.NewPrivateKey s.world = (.ok key, w1) →
        E.NewSignedCertificate ⟨commonName, ["coreos.com"], NewAltNames addrs⟩ key caCrt caKey w1
          = E.NewSignedCertificate ⟨commonName, ["coreos.com"], NewAltNames addrs⟩ key caCrt
              caKey' w1) →
      (newTLSSecret E vr caKey caCrt commonName secretName addrs fieldMap s).1 =
        (newTLSSecret E vr caKey' caCrt commonName secretName addrs fieldMap s).1 ∧
      (newTLSSecret E vr caKey caCrt commonName secretName addrs fieldMap s).2.world =
        (newTLSSecret E vr caKey' caCrt commonName secretName addrs fieldMap s).2.world) ∧
    (∀ w,
      encodedPrivateKeys (prepareTLSSecrets E vr (St.init w)).2.log =
        ((signerCalls (prepareTLSSecrets E vr (St.init w)).2.log).map fun c => c.2.1).take
          (encodedPrivateKeys (prepareTLSSecrets E vr (St.init w)).2.log).length) := by
  refine ⟨?_, ?_, ?_, ?_⟩
  · intro se s'
    refine newTLSSecret_cases E vr caKey caCrt commonName secretName addrs fieldMap s
      (fun r => r = (.ok se, s') → _) ?_ ?_ ?_
    · intro c w1 _ h
      simp at h
    · intro key w1 c w2 _ _ h
      simp at h
    · intro key w1 crt w2 h1 h2 h
      simp only [Prod.mk.injEq, Except.ok.injEq] at h
      obtain ⟨hse, hs⟩ := h
      subst hse hs
      exact ⟨key, crt, w1, h1, h2, rfl, by simp [encodedPrivateKeys, List.filterMap_append]⟩
  · intro err s'
    refine newTLSSecret_cases E vr caKey caCrt commonName secretName addrs fieldMap s
      (fun r => r = (.error err, s') → _) ?_ ?_ ?_
    · intro c w1 _ h
      simp only [Prod.mk.injEq] at h
      obtain ⟨_, hs⟩ := h
      subst hs
      simp [encodedPrivateKeys, List.filterMap_append]
    · intro key w1 c w2 _ _ h
      simp only [Prod.mk.injEq] at h
      obtain ⟨_, hs⟩ := h
      subst hs
      simp [encodedPrivateKeys, List.filterMap_append]
    · intro key w1 crt w2 _ _ h
      simp at h
  · intro hsame
    rcases h1 : E.NewPrivateKey s.world with ⟨c | key, w1⟩
    · rw [newTLSSecret_keyFail E vr caKey caCrt commonName secretName addrs fieldMap s h1,
        newTLSSecret_keyFail E vr caKey' caCrt commonName secretName addrs fieldMap s h1]
      exact ⟨rfl, rfl⟩
    · have hs := hsame key w1 h1
      rcases h2 : E.NewSignedCertificate ⟨commonName, orgForTLSCert, NewAltNames addrs⟩ key
        caCrt caKey' w1 with ⟨c | crt, w2⟩
      · have h2' : E.NewSignedCertificate ⟨commonName, orgForTLSCert, NewAltNames addrs⟩ key
            caCrt caKey w1 = (.error c, w2) := hs.trans h2
        rw [newTLSSecret_signFail E vr caKey caCrt commonName secretName addrs fieldMap s h1 h2',
          newTLSSecret_signFail E vr caKey' caCrt commonName secretName addrs fieldMap s h1 h2]
        exact ⟨rfl, rfl⟩
      · have h2' : E.NewSignedCertificate ⟨commonName, orgForTLSCert, NewAltNames addrs⟩ key
            caCrt caKey w1 = (.ok crt, w2) := hs.trans h2
        rw [newTLSSecret_ok E vr caKey caCrt commonName secretName addrs fieldMap s h1 h2',
          newTLSSecret_ok E vr caKey' caCrt commonName secretName addrs fieldMap s h1 h2]
        exact ⟨rfl, rfl⟩
  · intro w
    refine prepareTLSSecrets_cases E vr w
      (fun r _ => encodedPrivateKeys r.2.log =
        ((signerCalls r.2.log).map fun c => c.2.1).take (encodedPrivateKeys r.2.log).length)
      ?_ ?_ ?_ ?_ ?_ ?_ ?_ ?_ ?_ ?_ ?_ ?_ <;>
    · intros
      simp [encodedPrivateKeys, signerCalls, caCalls, keyFailCalls, issueCalls, roleCalls]

/-- Witness of C10: in the scripted environment the signer does not look at
the CA key, and the calls with the CA keys 0 and 99 return the same secret. -/
theorem newTLSSecret_caKey_not_leaked_witness :
    (∀ key w1, (demoEnv none).NewPrivateKey (St.init 2 : St Nat Nat DemoCert DemoPem).world
        = (.ok key, w1) →
      (demoEnv none).NewSignedCertificate ⟨"etcd peer", ["coreos.com"], NewAltNames ["a"]⟩ key
          ⟨"vault operator CA", 0, 0⟩ 0 w1
        = (demoEnv none).NewSignedCertificate ⟨"etcd peer", ["coreos.com"], NewAltNames ["a"]⟩
            key ⟨"vault operator CA", 0, 0⟩ 99 w1) ∧
    (newTLSSecret (demoEnv none) demoVault 0 ⟨"vault operator CA", 0, 0⟩ "etcd peer" "n" ["a"]
        [("key", "k"), ("cert", "c"), ("ca", "a")] (St.init 2)).1 =
      (newTLSSecret (demoEnv none) demoVault 99 ⟨"vault operator CA", 0, 0⟩ "etcd peer" "n" ["a"]
        [("key", "k"), ("cert", "c"), ("ca", "a")] (St.init 2)).1 :=
  ⟨fun _ _ _ => rfl,
    ((newTLSSecret_caKey_not_leaked (demoEnv none) demoVault 0 99 ⟨"vault operator CA", 0, 0⟩
      "etcd peer" "n" ["a"] [("key", "k"), ("cert", "c"), ("ca", "a")] (St.init 2)).2.2.1
        (fun _ _ _ => rfl)).1⟩

/-- C3. In every run of `prepareTLSSecrets`, every config handed to a signing
function has Organization exactly ["coreos.com"]; the configs are, in order
and up to the point where the run stops, those of the CA, the client, the
server and the peer; the AltNames of the CA config and of the client config
are empty and those of the server and peer configs are non-empty. The address
lists handed to `NewAltNames` give, in order, sets of 0 (client), 3 (server)
and 1 (peer) names. A run that returns nil builds all four configs. -/
theorem prepareTLSSecrets_certConfigs (E : Env W Key Cert Bytes) (vr : Vault) (w : W) :
    (∀ cfg ∈ certConfigs (prepareTLSSecrets E vr (St.init w)).2.log,
      cfg.Organization = ["coreos.com"] ∧
      ((cfg.CommonName = "vault operator CA" ∨ cfg.CommonName = "etcd client") →
        cfg.AltNames = ∅) ∧
      ((cfg.CommonName = "etcd server" ∨ cfg.CommonName = "etcd peer") →
        cfg.AltNames.Nonempty)) ∧
    (certConfigs (prepareTLSSecrets E vr (St.init w)).2.log).map (fun cfg => cfg.CommonName) =
      List.take (certConfigs (prepareTLSSecrets E vr (St.init w)).2.log).length
        ["vault operator CA", "etcd client", "etcd server", "etcd peer"] ∧
    (altNameCalls (prepareTLSSecrets E vr (St.init w)).2.log).map
        (fun addrs => (NewAltNames addrs).card) =
      List.take (altNameCalls (prepareTLSSecrets E vr (St.init w)).2.log).length [0, 3, 1] ∧
    ((prepareTLSSecrets E vr (St.init w)).1 = .ok () →
      (certConfigs (prepareTLSSecrets E vr (St.init w)).2.log).length = 4 ∧
      (altNameCalls (prepareTLSSecrets E vr (St.init w)).2.log).length = 3) := by
  refine prepareTLSSecrets_cases E vr w
    (fun r _ =>
      (∀ cfg ∈ certConfigs r.2.log,
        cfg.Organization = ["coreos.com"] ∧
        ((cfg.CommonName = "vault operator CA" ∨ cfg.CommonName = "etcd client") →
          cfg.AltNames = ∅) ∧
        ((cfg.CommonName = "etcd server" ∨ cfg.CommonName = "etcd peer") →
          cfg.AltNames.Nonempty)) ∧
      (certConfigs r.2.log).map (fun cfg => cfg.CommonName) =
        List.take (certConfigs r.2.log).length
          ["vault operator CA", "etcd client", "etcd server", "etcd peer"] ∧
      (altNameCalls r.2.log).map (fun addrs => (NewAltNames addrs).card) =
        List.take (altNameCalls r.2.log).length [0, 3, 1] ∧
      (r.1 = .ok () →
        (certConfigs r.2.log).length = 4 ∧ (altNameCalls r.2.log).length = 3))
    ?_ ?_ ?_ ?_ ?_ ?_ ?_ ?_ ?_ ?_ ?_ ?_ <;>
  · intros
    simp [certConfigs, altNameCalls, caCalls, keyFailCalls, issueCalls, roleCalls, caConfig,
      leafConfig, roleCommonName, roleAddrs, orgForTLSCert, serverAltNames_card]
    try simp [NewAltNames]

/-- C6. The create calls the store receives are, in order, the client secret,
the server secret and the peer secret, all in the namespace of the vault, up
to the stage at which the run ends. When the run fails at server persistence
the store has received exactly two create calls (client, then server), the
failing create is the last call of the run (no peer issuance, no further store
call), three keys were generated and the signers saw the CA, client and server
configs only, and the error is returned. When the run completes the store has
received exactly three create calls and nil is returned. -/
theorem prepareTLSSecrets_create_order (E : Env W Key Cert Bytes) (vr : Vault) (w : W) :
    (creates (prepareTLSSecrets E vr (St.init w)).2.log).map
        (fun p => (p.1, p.2.Name, p.2.Data.keys)) =
      List.take (persistsReached (provision E vr w).1)
        [ (vr.Namespace, E.EtcdClientTLSSecretName vr.Name,
            ["etcd-client.key", "etcd-client.crt", "etcd-client-ca.crt"]),
          (vr.Namespace, E.EtcdServerTLSSecretName vr.Name,
            ["server.key", "server.crt", "server-ca.crt"]),
          (vr.Namespace, E.EtcdPeerTLSSecretName vr.Name,
            ["peer.key", "peer.crt", "peer-ca.crt"]) ] ∧
    (∀ cause, (provision E vr w).1 = .Failed .PersistServer cause →
      (creates (prepareTLSSecrets E vr (St.init w)).2.log).map (fun p => (p.1, p.2.Name)) =
        [ (vr.Namespace, E.EtcdClientTLSSecretName vr.Name),
          (vr.Namespace, E.EtcdServerTLSSecretName vr.Name) ] ∧
      (∃ se, (prepareTLSSecrets E vr (St.init w)).2.log.getLast? =
          some (.Create vr.Namespace se) ∧
        se.Name = E.EtcdServerTLSSecretName vr.Name) ∧
      keyGenerations (prepareTLSSecrets E vr (St.init w)).2.log = 3 ∧
      (certConfigs (prepareTLSSecrets E vr (St.init w)).2.log).map (fun cfg => cfg.CommonName) =
        ["vault operator CA", "etcd client", "etcd server"] ∧
      (altNameCalls (prepareTLSSecrets E vr (St.init w)).2.log).length = 2 ∧
      (prepareTLSSecrets E vr (St.init w)).1 =
        .error ("prepare TLS secrets failed: " ++ cause)) ∧
    ((provision E vr w).1 = .Completed →
      (creates (prepareTLSSecrets E vr (St.init w)).2.log).length = 3 ∧
      (∀ p ∈ creates (prepareTLSSecrets E vr (St.init w)).2.log, p.1 = vr.Namespace) ∧
      (prepareTLSSecrets E vr (St.init w)).1 = .ok ()) := by
  refine prepareTLSSecrets_cases E vr w
    (fun r o =>
      (creates r.2.log).map (fun p => (p.1, p.2.Name, p.2.Data.keys)) =
        List.take (persistsReached o.1)
          [ (vr.Namespace, E.EtcdClientTLSSecretName vr.Name,
              ["etcd-client.key", "etcd-client.crt", "etcd-client-ca.crt"]),
            (vr.Namespace, E.EtcdServerTLSSecretName vr.Name,
              ["server.key", "server.crt", "server-ca.crt"]),
            (vr.Namespace, E.EtcdPeerTLSSecretName vr.Name,
              ["peer.key", "peer.crt", "peer-ca.crt"]) ] ∧
      (∀ cause, o.1 = .Failed .PersistServer cause →
        (creates r.2.log).map (fun p => (p.1, p.2.Name)) =
          [ (vr.Namespace, E.EtcdClientTLSSecretName vr.Name),
            (vr.Namespace, E.EtcdServerTLSSecretName vr.Name) ] ∧
        (∃ se, r.2.log.getLast? = some (.Create vr.Namespace se) ∧
          se.Name = E.EtcdServerTLSSecretName vr.Name) ∧
        keyGenerations r.2.log = 3 ∧
        (certConfigs r.2.log).map (fun cfg => cfg.CommonName) =
          ["vault operator CA", "etcd client", "etcd server"] ∧
        (altNameCalls r.2.log).length = 2 ∧
        r.1 = .error ("prepare TLS secrets failed: " ++ cause)) ∧
      (o.1 = .Completed →
        (creates r.2.log).length = 3 ∧
        (∀ p ∈ creates r.2.log, p.1 = vr.Namespace) ∧
        r.1 = .ok ()))
    ?_ ?_ ?_ ?_ ?_ ?_ ?_ ?_ ?_ ?_ ?_ ?_ <;>
  · intros
    simp [creates, certConfigs, altNameCalls, keyGenerations, caCalls, keyFailCalls, issueCalls,
      roleCalls, caConfig, leafConfig, roleCommonName, persistsReached, roleBundle_keys,
      roleFields]
    try simp [roleBundle, assemble, roleSecretName]

/-- Witness of C6: the scripted run whose call 7, the server create, fails. -/
theorem prepareTLSSecrets_create_order_witness :
    (provision (demoEnv (some 7)) demoVault 0).1 = .Failed .PersistServer "boom" ∧
    (creates (prepareTLSSecrets (demoEnv (some 7)) demoVault (St.init 0)).2.log).map
        (fun p => (p.1, p.2.Name)) =
      [ ("ns1", "vault1-etcd-client-tls"), ("ns1", "vault1-etcd-server-tls") ] ∧
    (prepareTLSSecrets (demoEnv (some 7)) demoVault (St.init 0)).1 =
      .error "prepare TLS secrets failed: boom" :=
  have h := (prepareTLSSecrets_create_order (demoEnv (some 7)) demoVault 0).2.1 "boom" rfl
  ⟨rfl, h.1, h.2.2.2.2.2⟩

/-- C7. Every run of `prepareTLSSecrets` starts with the calls of one
`newCACert` and makes no CA-creation call after them. When `newCACert` fails
the run makes no further call: no leaf is issued and the store receives no
create call. When it returns a CA key and certificate, every signer call of
the run is given exactly that certificate and that key, and the ca field of
every secret handed to the store ("etcd-client-ca.crt", "server-ca.crt",
"peer-ca.crt", in this order) is the PEM encoding of that certificate; a run
that returns nil has made three signer calls and three create calls. -/
theorem prepareTLSSecrets_single_ca (E : Env W Key Cert Bytes) (vr : Vault) (w : W) :
    (prepareTLSSecrets E vr (St.init w)).2.log.take (newCACert E (St.init w)).2.log.length =
      (newCACert E (St.init w)).2.log ∧
    caCreations
      ((prepareTLSSecrets E vr (St.init w)).2.log.drop
        (newCACert E (St.init w)).2.log.length) = [] ∧
    (caCreations (prepareTLSSecrets E vr (St.init w)).2.log).length ≤ 1 ∧
    (match (newCACert E (St.init w)).1 with
      | .error _ =>
        (prepareTLSSecrets E vr (St.init w)).2.log = (newCACert E (St.init w)).2.log ∧
        signerCalls (prepareTLSSecrets E vr (St.init w)).2.log = [] ∧
        creates (prepareTLSSecrets E vr (St.init w)).2.log = [] ∧
        (prepareTLSSecrets E vr (St.init w)).1 ≠ .ok ()
      | .ok (caKey, caCrt) =>
        (caCreations (prepareTLSSecrets E vr (St.init w)).2.log).map (fun c => c.2) = [caKey] ∧
        (∀ c ∈ signerCalls (prepareTLSSecrets E vr (St.init w)).2.log,
          c.2.2 = (caCrt, caKey)) ∧
        (∀ p ∈ (creates (prepareTLSSecrets E vr (St.init w)).2.log).zip
            ["etcd-client-ca.crt", "server-ca.crt", "peer-ca.crt"],
          p.1.2.Data.get? p.2 = some (E.EncodeCertificatePEM caCrt)) ∧
        (creates (prepareTLSSecrets E vr (St.init w)).2.log).length ≤ 3 ∧
        ((prepareTLSSecrets E vr (St.init w)).1 = .ok () →
          (signerCalls (prepareTLSSecrets E vr (St.init w)).2.log).length = 3 ∧
          (creates (prepareTLSSecrets E vr (St.init w)).2.log).length = 3)) := by
  refine prepareTLSSecrets_cases E vr w
    (fun r _ =>
      r.2.log.take (newCACert E (St.init w)).2.log.length = (newCACert E (St.init w)).2.log ∧
      caCreations (r.2.log.drop (newCACert E (St.init w)).2.log.length) = [] ∧
      (caCreations r.2.log).length ≤ 1 ∧
      (match (newCACert E (St.init w)).1 with
        | .error _ =>
          r.2.log = (newCACert E (St.init w)).2.log ∧ signerCalls r.2.log = [] ∧
          creates r.2.log = [] ∧ r.1 ≠ .ok ()
        | .ok (caKey, caCrt) =>
          (caCreations r.2.log).map (fun c => c.2) = [caKey] ∧
          (∀ c ∈ signerCalls r.2.log, c.2.2 = (caCrt, caKey)) ∧
          (∀ p ∈ (creates r.2.log).zip ["etcd-client-ca.crt", "server-ca.crt", "peer-ca.crt"],
            p.1.2.Data.get? p.2 = some (E.EncodeCertificatePEM caCrt)) ∧
          (creates r.2.log).length ≤ 3 ∧
          (r.1 = .ok () → (signerCalls r.2.log).length = 3 ∧ (creates r.2.log).length = 3)))
    ?_ ?_ ?_ ?_ ?_ ?_ ?_ ?_ ?_ ?_ ?_ ?_
  · intro c w1 h1
    rw [newCACert_keyFail E (St.init w) h1]
    simp [St.init, caCreations, signerCalls, creates]
  · intro caKey w1 c w2 h1 h2
    rw [newCACert_signFail E (St.init w) h1 h2]
    simp [St.init, caCreations, signerCalls, creates, caCalls]
  all_goals
    intros
    rename_i h1 h2
    rw [newCACert_ok E (St.init w) h1 h2]
    simp [St.init, caCreations, signerCalls, creates, caCalls, keyFailCalls, issueCalls,
      roleCalls, clientBundle_get?_ca, serverBundle_get?_ca, peerBundle_get?_ca]

/-- Witness of C7: the scripted run in which every call succeeds. -/
theorem prepareTLSSecrets_single_ca_witness :
    (prepareTLSSecrets (demoEnv none) demoVault (St.init 0)).1 = .ok () ∧
    (signerCalls (prepareTLSSecrets (demoEnv none) demoVault (St.init 0)).2.log).length = 3 ∧
    (creates (prepareTLSSecrets (demoEnv none) demoVault (St.init 0)).2.log).length = 3 :=
  ⟨rfl, (prepareTLSSecrets_single_ca (demoEnv none) demoVault 0).2.2.2.2.2.2.2 rfl⟩

/-- Witness of C3: the scripted run in which every call succeeds. -/
theorem prepareTLSSecrets_certConfigs_witness :
    (prepareTLSSecrets (demoEnv none) demoVault (St.init 0)).1 = .ok () ∧
    (certConfigs (prepareTLSSecrets (demoEnv none) demoVault (St.init 0)).2.log).length = 4 ∧
    (altNameCalls (prepareTLSSecrets (demoEnv none) demoVault (St.init 0)).2.log).length = 3 :=
  ⟨rfl, (prepareTLSSecrets_certConfigs (demoEnv none) demoVault 0).2.2.2 rfl⟩

end Claims

end VaultOperator
